import Mathlib

/-!
Shallow embedding of the `coordinate_transform` repository
(src/lib/GIS/lib/ProjParser.py, src/lib/GIS/management.py,
src/lib/coordinate_transform/coordinate_transform.py).

Conventions of the embedding:
* Python machine floats carrying coordinates are modelled as exact
  rationals (`Rat`); no claim in scope depends on floating-point rounding.
* A pandas `DataFrame` is modelled column-major, as pandas stores it: an
  ordered association list from column name to the list of cell values.
* Python exceptions are modelled with `Except`; observable side effects
  (file reads, file writes, printing, reading one line of stdin) are
  modelled as an event trace returned next to the `Except` result.
* The external projection library (pyproj / geopandas) is out of scope of
  the repository; its constructors `CRS.from_epsg` / `CRS.from_wkt` are
  modelled as total injections and the actual point transformation
  `gdf.to_crs` is a parameter `toCRS` of the functions that use it.
  `to_crs` on a frame whose CRS tag is absent fails, as geopandas does
  ("Cannot transform naive geometries").
-/

/-- A cell value of a table: a number, a string, or a (2D or 3D) point
geometry as stored in the internal `geometry` column. -/
inductive Val where
  | num (q : Rat)
  | str (s : String)
  | pt (x y : Rat) (z : Option Rat)
deriving DecidableEq, Repr

/-- Python exception kinds raised by the embedded code, with their message. -/
inductive PyErr where
  | valueError (msg : String)
  | exception (msg : String)
  | typeError (msg : String)
  | attributeError (attr : String)
  | fileNotFoundError (path : String)
deriving DecidableEq, Repr

/-- Observable side effects of a run: the one table read, table/shapefile
writes, text printed to stdout, and a blocking read of one stdin line. -/
inductive Event where
  | fileRead (path : String)
  | fileWrite (path : String)
  | stdout (msg : String)
  | stdinRead
deriving DecidableEq, Repr

/-- A canonical CRS as produced by the external projection library: either
resolved from an EPSG authority code or from a WKT string.  The library
constructors are modelled as total (projection mathematics is an external
collaborator of the repository). -/
inductive CRS where
  | epsg (code : Int)
  | wkt (s : String)
deriving DecidableEq, Repr

/-- The dynamically typed Python value handed to `parse_crs`: an `int`, a
`str`, an already resolved `pyproj.crs.CRS` object, Python `None`, or a
value of any other type (identified by an object id). -/
inductive CRSpec where
  | int (n : Int)
  | str (s : String)
  | crs (c : CRS)
  | pynone
  | other (id : Nat)
deriving DecidableEq, Repr

/-- A dynamically typed Python argument that the orchestrator validates
with `isinstance(-, str)`: either a string or some other object
(identified by an object id, used for Python `==`). -/
inductive PyObj where
  | str (s : String)
  | other (id : Nat)
deriving DecidableEq, Repr

/-- A pandas `DataFrame`, column-major: ordered association list from
column name to cell list.  Column names are unique in every frame the
code builds (`pd.read_csv` headers). -/
structure DF where
  cols : List (String × List Val)
deriving DecidableEq, Repr

/-- Column names of the frame, in order (`df.columns`). -/
def DF.names (df : DF) : List String := df.cols.map Prod.fst

/-- Lookup of the first entry with a given column name. -/
def DF.getColAux : List (String × List Val) → String → List Val
  | [], _ => []
  | e :: es, n => if e.1 = n then e.2 else DF.getColAux es n

/-- Read a column by name (`df[n]`); `[]` if the column is absent (the
embedded code only reads columns it has checked or created). -/
def DF.getCol (df : DF) (n : String) : List Val :=
  DF.getColAux df.cols n

/-- Replace the first entry with the given name in place, or append a new
entry at the end when the name is absent. -/
def DF.setColAux : List (String × List Val) → String → List Val → List (String × List Val)
  | [], n, vs => [(n, vs)]
  | e :: es, n, vs => if e.1 = n then (n, vs) :: es else e :: DF.setColAux es n vs

/-- Column assignment `df[n] = vs`: replace the column in place when the
name exists, else append a new column at the end, as pandas does. -/
def DF.setCol (df : DF) (n : String) (vs : List Val) : DF :=
  ⟨DF.setColAux df.cols n vs⟩

/-- Remove every entry with the given column name. -/
def DF.dropColAux : List (String × List Val) → String → List (String × List Val)
  | [], _ => []
  | e :: es, n => if e.1 = n then DF.dropColAux es n else e :: DF.dropColAux es n

/-- Column deletion `df.drop(columns=[n])`. -/
def DF.dropCol (df : DF) (n : String) : DF :=
  ⟨DF.dropColAux df.cols n⟩

/-- Every column of the frame holds exactly `k` cells (one per row). -/
def DF.uniform (df : DF) (k : Nat) : Prop :=
  ∀ e ∈ df.cols, (e.2).length = k

/-- A geopandas `GeoDataFrame`: the underlying frame (which contains the
`geometry` column) together with its CRS tag, `none` when untagged. -/
structure GDF where
  df : DF
  crs : Option CRS
deriving DecidableEq, Repr

/-- Codepoints of the Unicode digit zero of every decimal-digit run
(category `Nd`, Unicode 14.0, as shipped with the Python runtime): each
run is the ten consecutive codepoints holding digits 0-9.  These are the
characters Python `int()` accepts. -/
def ndZeroPoints : List Nat := [
  0x30, 0x660, 0x6F0, 0x7C0, 0x966, 0x9E6, 0xA66, 0xAE6,
  0xB66, 0xBE6, 0xC66, 0xCE6, 0xD66, 0xDE6, 0xE50, 0xED0,
  0xF20, 0x1040, 0x1090, 0x17E0, 0x1810, 0x1946, 0x19D0, 0x1A80,
  0x1A90, 0x1B50, 0x1BB0, 0x1C40, 0x1C50, 0xA620, 0xA8D0, 0xA900,
  0xA9D0, 0xA9F0, 0xAA50, 0xABF0, 0xFF10, 0x104A0, 0x10D30, 0x11066,
  0x110F0, 0x11136, 0x111D0, 0x112F0, 0x11450, 0x114D0, 0x11650, 0x116C0,
  0x11730, 0x118E0, 0x11950, 0x11C50, 0x11D50, 0x11DA0, 0x16A60, 0x16AC0,
  0x16B50, 0x1D7CE, 0x1D7D8, 0x1D7E2, 0x1D7EC, 0x1D7F6, 0x1E140, 0x1E2F0,
  0x1E950, 0x1FBF0]

/-- Inclusive codepoint ranges of every character that is numeric for
Python `str.isnumeric` without being a decimal digit (fractions,
superscripts, ideographs, letter numerals; Unicode 14.0): `isnumeric`
accepts them but `int()` rejects them. -/
def numericNonDigitRanges : List (Nat × Nat) := [
  (0xB2, 0xB3), (0xB9, 0xB9), (0xBC, 0xBE), (0x9F4, 0x9F9),
  (0xB72, 0xB77), (0xBF0, 0xBF2), (0xC78, 0xC7E), (0xD58, 0xD5E),
  (0xD70, 0xD78), (0xF2A, 0xF33), (0x1369, 0x137C), (0x16EE, 0x16F0),
  (0x17F0, 0x17F9), (0x19DA, 0x19DA), (0x2070, 0x2070), (0x2074, 0x2079),
  (0x2080, 0x2089), (0x2150, 0x2182), (0x2185, 0x2189), (0x2460, 0x249B),
  (0x24EA, 0x24FF), (0x2776, 0x2793), (0x2CFD, 0x2CFD), (0x3007, 0x3007),
  (0x3021, 0x3029), (0x3038, 0x303A), (0x3192, 0x3195), (0x3220, 0x3229),
  (0x3248, 0x324F), (0x3251, 0x325F), (0x3280, 0x3289), (0x32B1, 0x32BF),
  (0x3405, 0x3405), (0x3483, 0x3483), (0x382A, 0x382A), (0x3B4D, 0x3B4D),
  (0x4E00, 0x4E00), (0x4E03, 0x4E03), (0x4E07, 0x4E07), (0x4E09, 0x4E09),
  (0x4E5D, 0x4E5D), (0x4E8C, 0x4E8C), (0x4E94, 0x4E94), (0x4E96, 0x4E96),
  (0x4EBF, 0x4EC0), (0x4EDF, 0x4EDF), (0x4EE8, 0x4EE8), (0x4F0D, 0x4F0D),
  (0x4F70, 0x4F70), (0x5104, 0x5104), (0x5146, 0x5146), (0x5169, 0x5169),
  (0x516B, 0x516B), (0x516D, 0x516D), (0x5341, 0x5341), (0x5343, 0x5345),
  (0x534C, 0x534C), (0x53C1, 0x53C4), (0x56DB, 0x56DB), (0x58F1, 0x58F1),
  (0x58F9, 0x58F9), (0x5E7A, 0x5E7A), (0x5EFE, 0x5EFF), (0x5F0C, 0x5F0E),
  (0x5F10, 0x5F10), (0x62FE, 0x62FE), (0x634C, 0x634C), (0x67D2, 0x67D2),
  (0x6F06, 0x6F06), (0x7396, 0x7396), (0x767E, 0x767E), (0x8086, 0x8086),
  (0x842C, 0x842C), (0x8CAE, 0x8CAE), (0x8CB3, 0x8CB3), (0x8D30, 0x8D30),
  (0x9621, 0x9621), (0x9646, 0x9646), (0x964C, 0x964C), (0x9678, 0x9678),
  (0x96F6, 0x96F6), (0xA6E6, 0xA6EF), (0xA830, 0xA835), (0xF96B, 0xF96B),
  (0xF973, 0xF973), (0xF978, 0xF978), (0xF9B2, 0xF9B2), (0xF9D1, 0xF9D1),
  (0xF9D3, 0xF9D3), (0xF9FD, 0xF9FD), (0x10107, 0x10133), (0x10140, 0x10178),
  (0x1018A, 0x1018B), (0x102E1, 0x102FB), (0x10320, 0x10323), (0x10341, 0x10341),
  (0x1034A, 0x1034A), (0x103D1, 0x103D5), (0x10858, 0x1085F), (0x10879, 0x1087F),
  (0x108A7, 0x108AF), (0x108FB, 0x108FF), (0x10916, 0x1091B), (0x109BC, 0x109BD),
  (0x109C0, 0x109CF), (0x109D2, 0x109FF), (0x10A40, 0x10A48), (0x10A7D, 0x10A7E),
  (0x10A9D, 0x10A9F), (0x10AEB, 0x10AEF), (0x10B58, 0x10B5F), (0x10B78, 0x10B7F),
  (0x10BA9, 0x10BAF), (0x10CFA, 0x10CFF), (0x10E60, 0x10E7E), (0x10F1D, 0x10F26),
  (0x10F51, 0x10F54), (0x10FC5, 0x10FCB), (0x11052, 0x11065), (0x111E1, 0x111F4),
  (0x1173A, 0x1173B), (0x118EA, 0x118F2), (0x11C5A, 0x11C6C), (0x11FC0, 0x11FD4),
  (0x12400, 0x1246E), (0x16B5B, 0x16B61), (0x16E80, 0x16E96), (0x1D2E0, 0x1D2F3),
  (0x1D360, 0x1D378), (0x1E8C7, 0x1E8CF), (0x1EC71, 0x1ECAB), (0x1ECAD, 0x1ECAF),
  (0x1ECB1, 0x1ECB4), (0x1ED01, 0x1ED2D), (0x1ED2F, 0x1ED3D), (0x1F100, 0x1F10C),
  (0x20001, 0x20001), (0x20064, 0x20064), (0x200E2, 0x200E2), (0x20121, 0x20121),
  (0x2092A, 0x2092A), (0x20983, 0x20983), (0x2098C, 0x2098C), (0x2099C, 0x2099C),
  (0x20AEA, 0x20AEA), (0x20AFD, 0x20AFD), (0x20B19, 0x20B19), (0x22390, 0x22390),
  (0x22998, 0x22998), (0x23B1B, 0x23B1B), (0x2626D, 0x2626D), (0x2F890, 0x2F890)]

/-- Unicode decimal-digit value of a character (category `Nd`), the
digits Python `int()` accepts; `none` for every other character. -/
def pyDigitVal (c : Char) : Option Nat :=
  match ndZeroPoints.find? (fun z => z ≤ c.toNat && c.toNat ≤ z + 9) with
  | some z => some (c.toNat - z)
  | none => none

/-- Character test behind Python `str.isnumeric`: decimal digits plus
every numeric-but-not-decimal character. -/
def pyIsNumericChar (c : Char) : Bool :=
  (pyDigitVal c).isSome
    || numericNonDigitRanges.any (fun r => r.1 ≤ c.toNat && c.toNat ≤ r.2)

/-- Python `str.isnumeric`: nonempty and every character numeric. -/
def pyIsnumeric (s : String) : Bool :=
  !s.data.isEmpty && s.data.all pyIsNumericChar

/-- Python `str.isdecimal`: nonempty and every character a decimal digit
— exactly the strings `int()` accepts at the `parse_crs` call site. -/
def pyIsdecimal (s : String) : Bool :=
  !s.data.isEmpty && s.data.all (fun c => (pyDigitVal c).isSome)

/-- Base-10 value of a decimal-digit string. -/
def pyIntVal (s : String) : Int :=
  (s.data.foldl (fun n c => 10 * n + ((pyDigitVal c).getD 0)) 0 : Nat)

/-- Python `int(s)` as `parse_crs` invokes it, on a string already known
`isnumeric`: succeeds exactly on the decimal-digit strings, and raises
`ValueError` on any other numeric string (fraction, superscript,
ideograph, letter numeral).  The sign, whitespace and underscore
handling of full `int()` never fires here, because those characters are
not numeric and cannot pass the guard. -/
def pyInt? (s : String) : Except PyErr Int :=
  if pyIsdecimal s then .ok (pyIntVal s)
  else .error (.valueError ("invalid literal for int() with base 10: " ++ s))

/-- The external constructor `pyproj.crs.CRS.from_epsg`. -/
def CRS.from_epsg (n : Int) : CRS := .epsg n

/-- The external constructor `pyproj.crs.CRS.from_wkt`. -/
def CRS.from_wkt (s : String) : CRS := .wkt s

/-- Message of the `ValueError` raised by `parse_crs` on an unrecognized
specification. -/
def invalidCRSMsg : String :=
  "Invalid coordinate system. It must be an EPSG code, a WKT string, or a pyproj CRS object."

/-- `parse_crs` of src/lib/GIS/lib/ProjParser.py: dispatch on the dynamic
type of `coordinate_system` — `int` as EPSG code, `isnumeric` string fed
to `int()` and then `from_epsg` (so a numeric-but-not-decimal string lets
the `int()` `ValueError` escape), any other string as WKT, a resolved CRS
object passed through, `None` returned as-is, anything else the
invalid-CRS `ValueError`. -/
def parse_crs : CRSpec → Except PyErr (Option CRS)
  | .int n => .ok (some (CRS.from_epsg n))
  | .str s =>
    if pyIsnumeric s then
      match pyInt? s with
      | .error e => .error e
      | .ok k => .ok (some (CRS.from_epsg k))
    else .ok (some (CRS.from_wkt s))
  | .crs c => .ok (some c)
  | .pynone => .ok none
  | .other _ => .error (.valueError invalidCRSMsg)

/-- Error-propagating map over a list, evaluated left to right (the way
the vectorised pandas / shapely operations fail on the first bad cell). -/
def exMapM (f : α → Except PyErr β) : List α → Except PyErr (List β)
  | [] => .ok []
  | a :: as =>
    match f a with
    | .error e => .error e
    | .ok b =>
      match exMapM f as with
      | .error e => .error e
      | .ok bs => .ok (b :: bs)

/-- Numeric coercion applied by `geopandas.points_from_xy` to each cell;
a non-numeric cell raises. -/
def Val.asNum : Val → Except PyErr Rat
  | .num q => .ok q
  | _ => .error (.typeError "could not convert value to float")

/-- Accessor `.x` of the geometry column: the first coordinate of each
point; raises `AttributeError` when the column no longer holds geometry. -/
def Val.ptX : Val → Except PyErr Rat
  | .pt a _ _ => .ok a
  | _ => .error (.attributeError "x")

/-- Accessor `.y` of the geometry column: the second coordinate. -/
def Val.ptY : Val → Except PyErr Rat
  | .pt _ b _ => .ok b
  | _ => .error (.attributeError "y")

/-- The external `geopandas.points_from_xy`: build one 2D point per row
from the x and y columns, 3D when a z column is supplied (`zip`
truncation never fires: the columns of one frame have equal length). -/
def points_from_xy (xs ys : List Val) (zs : Option (List Val)) :
    Except PyErr (List Val) :=
  match zs with
  | none =>
    exMapM
      (fun p =>
        match Val.asNum p.1 with
        | .error e => .error e
        | .ok a =>
          match Val.asNum p.2 with
          | .error e => .error e
          | .ok b => .ok (Val.pt a b none))
      (xs.zip ys)
  | some zl =>
    exMapM
      (fun p =>
        match Val.asNum p.1.1 with
        | .error e => .error e
        | .ok a =>
          match Val.asNum p.1.2 with
          | .error e => .error e
          | .ok b =>
            match Val.asNum p.2 with
            | .error e => .error e
            | .ok c => .ok (Val.pt a b (some c)))
      ((xs.zip ys).zip zl)

/-- The external `GeoDataFrame.set_crs` (without `allow_override`):
assign the CRS tag; raises when a different tag is already set. -/
def GDF.set_crs (g : GDF) (c : Option CRS) : Except PyErr GDF :=
  match g.crs with
  | none => .ok { g with crs := c }
  | some old =>
    if some old = c then .ok g
    else .error (.valueError "The GeoDataFrame already has a CRS which is not equal to the passed CRS.")

/-- A simulated file system holding the delimited text tables `pd.read_csv`
can load. -/
abbrev FileSys := String → Option DF

/-- A simulated file system holding the geometry datasets `gpd.read_file`
can load. -/
abbrev GeoFileSys := String → Option GDF

/-- The external point transformation built by geopandas from a source and
a target CRS (`Transformer.from_crs`); out of scope of the repository, so
a parameter of the embedding. -/
abbrev Reproj := CRS → CRS → Rat × Rat × Option Rat → Rat × Rat × Option Rat

/-- The dynamically typed `in_table` argument of `XYTableToPoint`: a csv
path, an in-memory frame, or an invalid object. -/
inductive TableArg where
  | path (p : String)
  | frame (df : DF)
  | other (id : Nat)
deriving DecidableEq, Repr

/-- The dynamically typed `in_dataset` argument of `Project`: a shapefile
path, an in-memory geo frame, or an invalid object. -/
inductive DatasetArg where
  | path (p : String)
  | gds (g : GDF)
  | other (id : Nat)
deriving DecidableEq, Repr

/-- Prefix an event trace onto a traced result. -/
def prependEv (ev : List Event) (r : List Event × Except PyErr GDF) :
    List Event × Except PyErr GDF :=
  (ev ++ r.1, r.2)

/-- CRS tagging step of `XYTableToPoint` (lines 63-69 of
src/lib/GIS/management.py): skip when `coordinate_system` is `None`,
otherwise re-resolve it with `parse_crs` and `set_crs` the frame. -/
def xyTagCRS (g0 : GDF) (coordinate_system : CRSpec) : Except PyErr GDF :=
  if coordinate_system = CRSpec.pynone then Except.ok g0
  else
    match parse_crs coordinate_system with
    | .error e => .error e
    | .ok c => g0.set_crs c

/-- Tail of `XYTableToPoint` after the geometry column is built: the CRS
tagging and the optional shapefile write (lines 73-80). -/
def xyFinish (g0 : GDF) (out_feature_class : Option String)
    (coordinate_system : CRSpec) : List Event × Except PyErr GDF :=
  match xyTagCRS g0 coordinate_system with
  | .error e => ([], .error e)
  | .ok g1 =>
    match out_feature_class with
    | some p => ([Event.fileWrite p], .ok g1)
    | none => ([], .ok g1)

/-- Body of `XYTableToPoint` once the input frame is in memory: field
checks (lines 47-53), `points_from_xy` and `GeoDataFrame` construction
(lines 58-61), then `xyFinish`. -/
def xyBody (df : DF) (out_feature_class : Option String)
    (x_field y_field : String) (z_field : Option String)
    (coordinate_system : CRSpec) : List Event × Except PyErr GDF :=
  if x_field ∉ df.names then
    ([], .error (.valueError "The x field does not exist in the input table."))
  else if y_field ∉ df.names then
    ([], .error (.valueError "The y field does not exist in the input table."))
  else
    match z_field with
    | some z =>
      if z ∉ df.names then
        ([], .error (.valueError "The z field does not exist in the input table."))
      else
        match points_from_xy (df.getCol x_field) (df.getCol y_field) (some (df.getCol z)) with
        | .error e => ([], .error e)
        | .ok pts => xyFinish ⟨df.setCol "geometry" pts, none⟩ out_feature_class coordinate_system
    | none =>
      match points_from_xy (df.getCol x_field) (df.getCol y_field) none with
      | .error e => ([], .error e)
      | .ok pts => xyFinish ⟨df.setCol "geometry" pts, none⟩ out_feature_class coordinate_system

/-- `XYTableToPoint` of src/lib/GIS/management.py: load the table when a
path is given (lines 40-45), then `xyBody`. -/
def XYTableToPoint (fs : FileSys) (in_table : TableArg)
    (out_feature_class : Option String) (x_field y_field : String)
    (z_field : Option String) (coordinate_system : CRSpec) :
    List Event × Except PyErr GDF :=
  match in_table with
  | .other _ =>
    ([], .error (.valueError "Invalid input table. It must be a path to a csv or txt file, or a pandas DataFrame object."))
  | .path p =>
    match fs p with
    | none => ([], .error (.fileNotFoundError p))
    | some df => prependEv [Event.fileRead p] (xyBody df out_feature_class x_field y_field z_field coordinate_system)
  | .frame df => xyBody df out_feature_class x_field y_field z_field coordinate_system

/-- Message of the `ValueError` geopandas raises when `to_crs` is called
on a frame with no CRS tag. -/
def naiveGeomMsg : String :=
  "Cannot transform naive geometries. Please set a crs on the object first."

/-- Transform a geometry cell with the external point transformation;
a non-geometry cell raises. -/
def transformVal (f : Rat × Rat × Option Rat → Rat × Rat × Option Rat) :
    Val → Except PyErr Val
  | .pt a b c =>
    match f (a, b, c) with
    | (a2, b2, c2) => .ok (.pt a2 b2 c2)
  | _ => .error (.typeError "geometry column contains non-geometry values")

/-- The external `GeoDataFrame.to_crs`: fails on an absent target or an
untagged source, otherwise transforms every geometry and retags. -/
def GDF.to_crs (toCRS : Reproj) (g : GDF) (oc : Option CRS) :
    Except PyErr GDF :=
  match oc with
  | none => .error (.valueError "Must pass either crs or epsg.")
  | some target =>
    match g.crs with
    | none => .error (.valueError naiveGeomMsg)
    | some src =>
      match exMapM (transformVal (toCRS src target)) (g.df.getCol "geometry") with
      | .error e => .error e
      | .ok pts => .ok ⟨g.df.setCol "geometry" pts, some target⟩

/-- Warning printed by `Project` when no output coordinate system is
given (line 123 of src/lib/GIS/management.py). -/
def projectNoTargetWarning : String :=
  "Warning: The output coordinate system is not specified. The output dataset will same as the input dataset."

/-- Write-and-return tail of `Project` (lines 130-138). -/
def projWrite (ev : List Event) (g : GDF) (out_dataset : Option String) :
    List Event × Except PyErr GDF :=
  match out_dataset with
  | some p => (ev ++ [Event.fileWrite p], .ok g)
  | none => (ev, .ok g)

/-- Body of `Project` once the dataset is in memory: the `None`-target
warning fallback or `parse_crs` plus `to_crs` (lines 122-126), then the
optional write. -/
def projBody (toCRS : Reproj) (g : GDF) (out_dataset : Option String)
    (out_coor_system : CRSpec) : List Event × Except PyErr GDF :=
  if out_coor_system = CRSpec.pynone then
    projWrite [Event.stdout projectNoTargetWarning] g out_dataset
  else
    match parse_crs out_coor_system with
    | .error e => ([], .error e)
    | .ok oc =>
      match GDF.to_crs toCRS g oc with
      | .error e => ([], .error e)
      | .ok g2 => projWrite [] g2 out_dataset

/-- `Project` of src/lib/GIS/management.py: load the dataset when a path
is given (lines 113-118), then `projBody`. -/
def Project (gfs : GeoFileSys) (toCRS : Reproj) (in_dataset : DatasetArg)
    (out_dataset : Option String) (out_coor_system : CRSpec) :
    List Event × Except PyErr GDF :=
  match in_dataset with
  | .other _ =>
    ([], .error (.valueError "Invalid input dataset. It must be a path to a shapefile or a geopandas GeoDataFrame object."))
  | .path p =>
    match gfs p with
    | none => ([], .error (.fileNotFoundError p))
    | some g => prependEv [Event.fileRead p] (projBody toCRS g out_dataset out_coor_system)
  | .gds g => projBody toCRS g out_dataset out_coor_system

/-- Lift a resolved CRS (a `pyproj` object or Python `None`) back into the
dynamic value that `coordinate_transform` passes on to `XYTableToPoint`
and `Project` (lines 73-86 of coordinate_transform.py hand the result of
`parse_crs` to the `coordinate_system` / `out_coor_system` parameters). -/
def optToSpec : Option CRS → CRSpec
  | some c => CRSpec.crs c
  | none => CRSpec.pynone

/-- Warning printed by `coordinate_transform` before the overwrite
confirmation (line 98 of coordinate_transform.py), yellow ANSI style
included. -/
def overwriteWarnMsg : String :=
  "\x1b[33mWarning: The output table path is the same as the input table path. Are you sure you want to overwrite? (Y/n)\x1b[0m"

/-- Message of the plain `Exception` raised when the user declines the
overwrite (line 103 of coordinate_transform.py). -/
def notOverwrittenMsg : String :=
  "The original file will not be overwritten."

/-- Stages 1-4 of `coordinate_transform` (lines 25-91 of
coordinate_transform.py): the `os.path.isfile` check and `pd.read_csv`
load, the field and path validations in source order, the two `parse_crs`
calls, the `XYTableToPoint` / `Project` calls (both with their output
path argument `None`), and the flattening of the geometry column into the
output fields followed by dropping `geometry`.  Returns the event trace,
and on success the computed frame together with the validated output path
(`None` or the path string), which stage 5 consumes. -/
def ct_compute (toCRS : Reproj) (fs : FileSys) (in_table_path : String)
    (in_x_field in_y_field : PyObj) (in_crs : CRSpec)
    (out_table_path : Option PyObj) (out_x_field out_y_field : PyObj)
    (out_crs : CRSpec) : List Event × Except PyErr (DF × Option String) :=
  match fs in_table_path with
  | none => ([], .error (.valueError "in_table_path does not exist."))
  | some df =>
    if in_x_field = in_y_field then
      ([Event.fileRead in_table_path], .error (.valueError "in_x_field same as in_y_field"))
    else
      match in_x_field with
      | .other _ => ([Event.fileRead in_table_path], .error (.valueError "in_x_field must be a string"))
      | .str ix =>
        if ix ∉ df.names then
          ([Event.fileRead in_table_path], .error (.valueError "in_x_field does not exist in the input table"))
        else
          match in_y_field with
          | .other _ => ([Event.fileRead in_table_path], .error (.valueError "in_y_field must be a string"))
          | .str iy =>
            if iy ∉ df.names then
              ([Event.fileRead in_table_path], .error (.valueError "in_y_field does not exist in the input table"))
            else
              match parse_crs in_crs with
              | .error e => ([Event.fileRead in_table_path], .error e)
              | .ok inC =>
                match
                  (match out_table_path with
                   | none => Except.ok (none : Option String)
                   | some (.str p) => Except.ok (some p)
                   | some (.other _) => Except.error (PyErr.valueError "out_table_path must be a string")) with
                | .error e => ([Event.fileRead in_table_path], .error e)
                | .ok outPath =>
                  if out_x_field = out_y_field then
                    ([Event.fileRead in_table_path], .error (.valueError "out_x_field same as out_y_field"))
                  else
                    match out_x_field with
                    | .other _ => ([Event.fileRead in_table_path], .error (.valueError "out_x_field must be a string"))
                    | .str ox =>
                      match out_y_field with
                      | .other _ => ([Event.fileRead in_table_path], .error (.valueError "out_y_field must be a string"))
                      | .str oy =>
                        match parse_crs out_crs with
                        | .error e => ([Event.fileRead in_table_path], .error e)
                        | .ok outC =>
                          match XYTableToPoint fs (TableArg.frame df) none ix iy none (optToSpec inC) with
                          | (ev1, .error e) => ([Event.fileRead in_table_path] ++ ev1, .error e)
                          | (ev1, .ok g) =>
                            match Project (fun _ => none) toCRS (DatasetArg.gds g) none (optToSpec outC) with
                            | (ev2, .error e) => ([Event.fileRead in_table_path] ++ ev1 ++ ev2, .error e)
                            | (ev2, .ok g2) =>
                              match exMapM Val.ptX (g2.df.getCol "geometry") with
                              | .error e => ([Event.fileRead in_table_path] ++ ev1 ++ ev2, .error e)
                              | .ok xs =>
                                match exMapM Val.ptY ((g2.df.setCol ox (xs.map Val.num)).getCol "geometry") with
                                | .error e => ([Event.fileRead in_table_path] ++ ev1 ++ ev2, .error e)
                                | .ok ys =>
                                  ([Event.fileRead in_table_path] ++ ev1 ++ ev2,
                                   .ok ((((g2.df.setCol ox (xs.map Val.num)).setCol oy (ys.map Val.num)).dropCol "geometry"), outPath))

/-- Stage 5 of `coordinate_transform` (lines 93-105): no write when no
output path was requested; unconditional write when the output path
differs from the input path; otherwise the interactive confirmation —
print the warning, block on one stdin line, write exactly when that line
is `"Y"`, and raise the plain `Exception` otherwise. -/
def ct_persist (outPath : Option String) (in_table_path stdin_line : String)
    (df : DF) : List Event × Except PyErr DF :=
  match outPath with
  | none => ([], .ok df)
  | some p =>
    if p = in_table_path then
      if stdin_line = "Y" then
        ([Event.stdout overwriteWarnMsg, Event.stdinRead, Event.fileWrite p], .ok df)
      else
        ([Event.stdout overwriteWarnMsg, Event.stdinRead], .error (.exception notOverwrittenMsg))
    else
      ([Event.fileWrite p], .ok df)

/-- `coordinate_transform` of
src/lib/coordinate_transform/coordinate_transform.py: the five-stage
pipeline, `ct_compute` followed by `ct_persist`.  `stdin_line` is the one
line of interactive input the confirmation gate would block on. -/
def coordinate_transform (toCRS : Reproj) (fs : FileSys) (stdin_line : String)
    (in_table_path : String) (in_x_field in_y_field : PyObj) (in_crs : CRSpec)
    (out_table_path : Option PyObj) (out_x_field out_y_field : PyObj)
    (out_crs : CRSpec) : List Event × Except PyErr DF :=
  match ct_compute toCRS fs in_table_path in_x_field in_y_field in_crs
      out_table_path out_x_field out_y_field out_crs with
  | (ev, .error e) => (ev, .error e)
  | (ev, .ok (df, outPath)) =>
    match ct_persist outPath in_table_path stdin_line df with
    | (ev2, r) => (ev ++ ev2, r)


theorem DF.getColAux_setColAux_self (n : String) (vs : List Val)
    (l : List (String × List Val)) :
    DF.getColAux (DF.setColAux l n vs) n = vs := by
  induction l with
  | nil => simp [DF.setColAux, DF.getColAux]
  | cons e es ih =>
    by_cases he : e.1 = n
    · simp [DF.setColAux, DF.getColAux, he]
    · simp [DF.setColAux, DF.getColAux, he, ih]

theorem DF.getCol_setCol_self (df : DF) (n : String) (vs : List Val) :
    (df.setCol n vs).getCol n = vs :=
  DF.getColAux_setColAux_self n vs df.cols

theorem DF.getColAux_setColAux_ne (n m : String) (vs : List Val)
    (hmn : m ≠ n) (l : List (String × List Val)) :
    DF.getColAux (DF.setColAux l n vs) m = DF.getColAux l m := by
  induction l with
  | nil => simp [DF.setColAux, DF.getColAux, hmn, Ne.symm hmn]
  | cons e es ih =>
    by_cases he : e.1 = n
    · have hem : e.1 ≠ m := by rw [he]; exact fun hc => hmn hc.symm
      simp [DF.setColAux, DF.getColAux, he, hem, hmn, Ne.symm hmn]
    · by_cases hm : e.1 = m
      · simp [DF.setColAux, DF.getColAux, he, hm, hmn, Ne.symm hmn]
      · simp [DF.setColAux, DF.getColAux, he, hm, ih]

theorem DF.getCol_setCol_ne (df : DF) (n m : String) (vs : List Val)
    (hmn : m ≠ n) : (df.setCol n vs).getCol m = df.getCol m :=
  DF.getColAux_setColAux_ne n m vs hmn df.cols

theorem DF.namesAux_setColAux (n : String) (vs : List Val)
    (l : List (String × List Val)) :
    (DF.setColAux l n vs).map Prod.fst
      = if n ∈ l.map Prod.fst then l.map Prod.fst else l.map Prod.fst ++ [n] := by
  induction l with
  | nil => simp [DF.setColAux]
  | cons e es ih =>
    by_cases he : e.1 = n
    · simp [DF.setColAux, he]
    · by_cases hm : n ∈ es.map Prod.fst
      · simp [DF.setColAux, he, hm, ih, Ne.symm he]
      · simp [DF.setColAux, he, hm, ih, Ne.symm he]

theorem DF.names_setCol (df : DF) (n : String) (vs : List Val) :
    (df.setCol n vs).names
      = if n ∈ df.names then df.names else df.names ++ [n] :=
  DF.namesAux_setColAux n vs df.cols

theorem DF.mem_names_setCol (df : DF) (n m : String) (vs : List Val) :
    m ∈ (df.setCol n vs).names ↔ m ∈ df.names ∨ m = n := by
  rw [DF.names_setCol]
  by_cases h : n ∈ df.names
  · simp only [h, if_true]
    constructor
    · exact Or.inl
    · rintro (hm | rfl)
      · exact hm
      · exact h
  · simp [h]

theorem DF.nodup_names_setCol (df : DF) (n : String) (vs : List Val)
    (h : df.names.Nodup) : (df.setCol n vs).names.Nodup := by
  rw [DF.names_setCol]
  by_cases hm : n ∈ df.names
  · simpa [hm] using h
  · simp [hm, List.nodup_append, h]

theorem DF.namesAux_dropColAux (n : String) (l : List (String × List Val)) :
    (DF.dropColAux l n).map Prod.fst
      = (l.map Prod.fst).filter (fun m => m != n) := by
  induction l with
  | nil => simp [DF.dropColAux]
  | cons e es ih =>
    by_cases he : e.1 = n
    · simp [DF.dropColAux, he, ih, List.filter_cons]
    · simp [DF.dropColAux, he, ih, List.filter_cons]

theorem DF.names_dropCol (df : DF) (n : String) :
    (df.dropCol n).names = df.names.filter (fun m => m != n) :=
  DF.namesAux_dropColAux n df.cols

theorem DF.mem_names_dropCol (df : DF) (n m : String) :
    m ∈ (df.dropCol n).names ↔ m ∈ df.names ∧ m ≠ n := by
  rw [DF.names_dropCol]
  simp [List.mem_filter]

theorem DF.nodup_names_dropCol (df : DF) (n : String)
    (h : df.names.Nodup) : (df.dropCol n).names.Nodup := by
  rw [DF.names_dropCol]
  exact h.filter _

theorem DF.getColAux_dropColAux_ne (n m : String) (hmn : m ≠ n)
    (l : List (String × List Val)) :
    DF.getColAux (DF.dropColAux l n) m = DF.getColAux l m := by
  induction l with
  | nil => simp [DF.dropColAux]
  | cons e es ih =>
    by_cases he : e.1 = n
    · have hem : e.1 ≠ m := by rw [he]; exact fun hc => hmn hc.symm
      simp [DF.dropColAux, DF.getColAux, he, hem, hmn, Ne.symm hmn, ih]
    · by_cases hm : e.1 = m
      · simp [DF.dropColAux, DF.getColAux, he, hm, hmn, Ne.symm hmn]
      · simp [DF.dropColAux, DF.getColAux, he, hm, ih]

theorem DF.getCol_dropCol_ne (df : DF) (n m : String) (hmn : m ≠ n) :
    (df.dropCol n).getCol m = df.getCol m :=
  DF.getColAux_dropColAux_ne n m hmn df.cols

theorem DF.uniformAux_setColAux (n : String) (vs : List Val) (k : Nat)
    (hv : vs.length = k) (l : List (String × List Val)) :
    (∀ e ∈ l, (e.2).length = k) →
    ∀ e ∈ DF.setColAux l n vs, (e.2).length = k := by
  induction l with
  | nil =>
    intro _ f hf
    rcases List.mem_singleton.mp (by simpa [DF.setColAux] using hf) with hf1
    rw [hf1]; exact hv
  | cons e es ih =>
    intro h f hf
    by_cases he : e.1 = n
    · rcases List.mem_cons.mp (by simpa [DF.setColAux, he] using hf) with hf1 | hf2
      · rw [hf1]; exact hv
      · exact h f (List.mem_cons_of_mem e hf2)
    · rcases List.mem_cons.mp (by simpa [DF.setColAux, he] using hf) with hf1 | hf2
      · rw [hf1]; exact h e (List.mem_cons_self e es)
      · exact ih (fun g hg => h g (List.mem_cons_of_mem e hg)) f hf2

theorem DF.uniform_setCol (df : DF) (n : String) (vs : List Val) (k : Nat)
    (h : df.uniform k) (hv : vs.length = k) : (df.setCol n vs).uniform k :=
  DF.uniformAux_setColAux n vs k hv df.cols h

theorem DF.uniformAux_dropColAux (n : String) (k : Nat)
    (l : List (String × List Val)) :
    (∀ e ∈ l, (e.2).length = k) →
    ∀ e ∈ DF.dropColAux l n, (e.2).length = k := by
  induction l with
  | nil => intro _ f hf; simp [DF.dropColAux] at hf
  | cons e es ih =>
    intro h f hf
    by_cases he : e.1 = n
    · exact ih (fun g hg => h g (List.mem_cons_of_mem e hg)) f
        (by simpa [DF.dropColAux, he] using hf)
    · rcases List.mem_cons.mp (by simpa [DF.dropColAux, he] using hf) with hf1 | hf2
      · rw [hf1]; exact h e (List.mem_cons_self e es)
      · exact ih (fun g hg => h g (List.mem_cons_of_mem e hg)) f hf2

theorem DF.uniform_dropCol (df : DF) (n : String) (k : Nat)
    (h : df.uniform k) : (df.dropCol n).uniform k :=
  DF.uniformAux_dropColAux n k df.cols h

theorem DF.getColAux_length (m : String) (k : Nat)
    (l : List (String × List Val)) :
    (∀ e ∈ l, (e.2).length = k) → m ∈ l.map Prod.fst →
    (DF.getColAux l m).length = k := by
  induction l with
  | nil => intro _ hm; simp at hm
  | cons e es ih =>
    intro h hm
    by_cases he : e.1 = m
    · simp only [DF.getColAux, he, if_true]
      exact h e (List.mem_cons_self e es)
    · rw [List.map_cons] at hm
      have hm3 : m ∈ es.map Prod.fst := by
        rcases List.mem_cons.mp hm with h1 | h1
        · exact absurd h1.symm he
        · exact h1
      simp only [DF.getColAux, he, if_false]
      exact ih (fun g hg => h g (List.mem_cons_of_mem e hg)) hm3

theorem DF.getCol_length_of_uniform (df : DF) (m : String) (k : Nat)
    (h : df.uniform k) (hm : m ∈ df.names) : (df.getCol m).length = k :=
  DF.getColAux_length m k df.cols h hm

theorem exMapM_ok_length (f : α → Except PyErr β) :
    ∀ (l : List α) (l2 : List β), exMapM f l = .ok l2 → l2.length = l.length
  | [], l2, h => by
    simp only [exMapM] at h
    cases h
    rfl
  | a :: as, l2, h => by
    simp only [exMapM] at h
    cases hf : f a with
    | error e => rw [hf] at h; cases h
    | ok b =>
      rw [hf] at h
      cases hr : exMapM f as with
      | error e => rw [hr] at h; cases h
      | ok bs =>
        rw [hr] at h
        cases h
        simp [exMapM_ok_length f as bs hr]

theorem points_from_xy_ok_length (xs ys : List Val) (pts : List Val)
    (h : points_from_xy xs ys none = .ok pts) :
    pts.length = min xs.length ys.length := by
  unfold points_from_xy at h
  have h2 := exMapM_ok_length _ _ _ h
  simpa [List.length_zip] using h2

theorem xyFinish_trace_none (g0 : GDF) (cs : CRSpec) :
    (xyFinish g0 none cs).1 = [] := by
  unfold xyFinish
  split <;> rfl

theorem xyBody_trace_none (df : DF) (x y : String) (z : Option String)
    (cs : CRSpec) : (xyBody df none x y z cs).1 = [] := by
  unfold xyBody
  repeat' split
  all_goals first | rfl | apply xyFinish_trace_none

theorem XYTableToPoint_trace_frame (fs : FileSys) (df : DF) (x y : String)
    (z : Option String) (cs : CRSpec) :
    (XYTableToPoint fs (TableArg.frame df) none x y z cs).1 = [] :=
  xyBody_trace_none df x y z cs

theorem projBody_trace_none_no_write (toCRS : Reproj) (g : GDF) (cs : CRSpec)
    (q : String) : Event.fileWrite q ∉ (projBody toCRS g none cs).1 := by
  unfold projBody projWrite
  repeat' split
  all_goals simp_all

theorem Project_trace_gds_none_no_write (gfs : GeoFileSys) (toCRS : Reproj)
    (g : GDF) (cs : CRSpec) (q : String) :
    Event.fileWrite q ∉ (Project gfs toCRS (DatasetArg.gds g) none cs).1 :=
  projBody_trace_none_no_write toCRS g cs q

theorem ct_compute_no_fileWrite (toCRS : Reproj) (fs : FileSys) (itp : String)
    (ixf iyf : PyObj) (ic : CRSpec) (otp : Option PyObj) (oxf oyf : PyObj)
    (oc : CRSpec) (q : String) :
    Event.fileWrite q ∉ (ct_compute toCRS fs itp ixf iyf ic otp oxf oyf oc).1 := by
  unfold ct_compute
  cases hfs : fs itp with
  | none => simp
  | some df =>
    by_cases h1 : ixf = iyf
    · simp [h1]
    · simp only [if_neg h1]
      cases ixf with
      | other i => simp
      | str ix =>
        by_cases h2 : ix ∉ df.names
        · simp [if_pos h2]
        · simp only [if_neg h2]
          cases iyf with
          | other i => simp
          | str iy =>
            by_cases h3 : iy ∉ df.names
            · simp [if_pos h3]
            · simp only [if_neg h3]
              cases hic : parse_crs ic with
              | error e => simp
              | ok inC =>
                cases hop : (match otp with
                   | none => Except.ok (none : Option String)
                   | some (.str p) => Except.ok (some p)
                   | some (.other _) => Except.error (PyErr.valueError "out_table_path must be a string")) with
                | error e => simp
                | ok outPath =>
                  by_cases h4 : oxf = oyf
                  · simp [h4]
                  · simp only [if_neg h4]
                    cases oxf with
                    | other i => simp
                    | str ox =>
                      cases oyf with
                      | other i => simp
                      | str oy =>
                        cases hoc : parse_crs oc with
                        | error e => simp
                        | ok outC =>
                          cases hxy : XYTableToPoint fs (TableArg.frame df) none ix iy none (optToSpec inC) with
                          | mk ev1 r1 =>
                            have hev1 : ev1 = [] := by
                              have h0 := XYTableToPoint_trace_frame fs df ix iy none (optToSpec inC)
                              rw [hxy] at h0
                              exact h0
                            cases r1 with
                            | error e => simp [hev1]
                            | ok g =>
                              cases hpr : Project (fun _ => none) toCRS (DatasetArg.gds g) none (optToSpec outC) with
                              | mk ev2 r2 =>
                                have hev2 : Event.fileWrite q ∉ ev2 := by
                                  have h0 := Project_trace_gds_none_no_write (fun _ => none) toCRS g (optToSpec outC) q
                                  rw [hpr] at h0
                                  exact h0
                                cases r2 with
                                | error e => simp [hpr, hev1, hev2]
                                | ok g2 =>
                                  cases hxs : exMapM Val.ptX (g2.df.getCol "geometry") with
                                  | error e => simp [hpr, hxs, hev1, hev2]
                                  | ok xs =>
                                    cases hys : exMapM Val.ptY ((g2.df.setCol ox (xs.map Val.num)).getCol "geometry") with
                                    | error e => simp [hpr, hxs, hys, hev1, hev2]
                                    | ok ys => simp [hpr, hxs, hys, hev1, hev2]

theorem ct_persist_none (itp stdin : String) (d : DF) :
    ct_persist none itp stdin d = ([], .ok d) := rfl

theorem ct_persist_error_shape (op : Option String) (itp stdin : String)
    (d : DF) (ev2 : List Event) (e : PyErr)
    (h : ct_persist op itp stdin d = (ev2, .error e)) :
    ev2 = [Event.stdout overwriteWarnMsg, Event.stdinRead]
      ∧ e = PyErr.exception notOverwrittenMsg := by
  unfold ct_persist at h
  cases op with
  | none => simp at h
  | some p =>
    by_cases hp : p = itp
    · by_cases hs : stdin = "Y"
      · simp [hp, hs] at h
      · simp [hp, hs] at h
        exact ⟨h.1.symm, h.2.symm⟩
    · simp [hp] at h

theorem ct_persist_ok_val (op : Option String) (itp stdin : String)
    (d d2 : DF) (ev2 : List Event)
    (h : ct_persist op itp stdin d = (ev2, .ok d2)) : d2 = d := by
  unfold ct_persist at h
  cases op with
  | none => simp at h; exact h.2.symm
  | some p =>
    by_cases hp : p = itp
    · by_cases hs : stdin = "Y"
      · simp [hp, hs] at h; exact h.2.symm
      · simp [hp, hs] at h
    · simp [hp] at h; exact h.2.symm

theorem ct_persist_no_write_of_ne (op : Option String) (itp stdin : String)
    (d : DF) (q : String) (hq : op ≠ some q) :
    Event.fileWrite q ∉ (ct_persist op itp stdin d).1 := by
  unfold ct_persist
  cases op with
  | none => simp
  | some p =>
    have hpq : p ≠ q := fun hc => hq (by rw [hc])
    by_cases hp : p = itp
    · by_cases hs : stdin = "Y"
      · simp only [hp, hs, if_true, if_pos rfl]
        simp
        exact fun hc2 => hpq (by rw [hp, hc2])
      · simp [hp, hs]
    · simp only [if_neg hp]
      simp
      exact fun hc2 => hpq hc2.symm

theorem coordinate_transform_error_no_fileWrite (toCRS : Reproj) (fs : FileSys)
    (stdin itp : String) (ixf iyf : PyObj) (ic : CRSpec) (otp : Option PyObj)
    (oxf oyf : PyObj) (oc : CRSpec) (ev : List Event) (e : PyErr) (q : String)
    (h : coordinate_transform toCRS fs stdin itp ixf iyf ic otp oxf oyf oc
          = (ev, .error e)) :
    Event.fileWrite q ∉ ev := by
  unfold coordinate_transform at h
  cases hc : ct_compute toCRS fs itp ixf iyf ic otp oxf oyf oc with
  | mk ev0 r0 =>
    have hw : Event.fileWrite q ∉ ev0 := by
      have h0 := ct_compute_no_fileWrite toCRS fs itp ixf iyf ic otp oxf oyf oc q
      rw [hc] at h0
      exact h0
    rw [hc] at h
    cases r0 with
    | error e0 =>
      simp only [Prod.mk.injEq] at h
      rw [← h.1]
      exact hw
    | ok dop =>
      cases hp : ct_persist dop.2 itp stdin dop.1 with
      | mk ev2 r2 =>
        simp only [hp, Prod.mk.injEq] at h
        cases r2 with
        | ok d2 => exact absurd h.2 (by simp)
        | error e2 =>
          obtain ⟨hsh, _⟩ := ct_persist_error_shape dop.2 itp stdin dop.1 ev2 e2 hp
          rw [← h.1, hsh]
          simp [hw]

theorem ct_compute_ok_inv (toCRS : Reproj) (fs : FileSys) (itp : String)
    (ixf iyf : PyObj) (ic : CRSpec) (otp : Option PyObj) (oxf oyf : PyObj)
    (oc : CRSpec) (ev : List Event) (res : DF) (op : Option String)
    (hc : ct_compute toCRS fs itp ixf iyf ic otp oxf oyf oc = (ev, .ok (res, op))) :
    ∃ (df : DF) (ix iy ox oy : String) (inC outC : Option CRS) (g g2 : GDF)
      (xs ys : List Rat),
      fs itp = some df ∧
      ixf = PyObj.str ix ∧ iyf = PyObj.str iy ∧
      oxf = PyObj.str ox ∧ oyf = PyObj.str oy ∧
      ix ∈ df.names ∧ iy ∈ df.names ∧ ox ≠ oy ∧
      parse_crs ic = .ok inC ∧ parse_crs oc = .ok outC ∧
      (otp = none → op = none) ∧
      (∃ ev1, XYTableToPoint fs (TableArg.frame df) none ix iy none (optToSpec inC) = (ev1, .ok g)) ∧
      (∃ ev2, Project (fun _ => none) toCRS (DatasetArg.gds g) none (optToSpec outC) = (ev2, .ok g2)) ∧
      exMapM Val.ptX (g2.df.getCol "geometry") = .ok xs ∧
      exMapM Val.ptY ((g2.df.setCol ox (xs.map Val.num)).getCol "geometry") = .ok ys ∧
      res = ((g2.df.setCol ox (xs.map Val.num)).setCol oy (ys.map Val.num)).dropCol "geometry" := by
  unfold ct_compute at hc
  cases hfs : fs itp with
  | none => simp only [hfs] at hc; simp at hc
  | some df =>
    simp only [hfs] at hc
    by_cases h1 : ixf = iyf
    · simp [h1] at hc
    · simp only [if_neg h1] at hc
      cases ixf with
      | other i => simp at hc
      | str ix =>
        by_cases h2 : ix ∉ df.names
        · simp only [if_pos h2] at hc; simp at hc
        · simp only [if_neg h2] at hc
          cases iyf with
          | other i => simp at hc
          | str iy =>
            by_cases h3 : iy ∉ df.names
            · simp only [if_pos h3] at hc; simp at hc
            · simp only [if_neg h3] at hc
              cases hic : parse_crs ic with
              | error e => simp only [hic] at hc; simp at hc
              | ok inC =>
                simp only [hic] at hc
                cases hop : (match otp with
                   | none => Except.ok (none : Option String)
                   | some (.str p) => Except.ok (some p)
                   | some (.other _) => Except.error (PyErr.valueError "out_table_path must be a string")) with
                | error e => simp only [hop] at hc; simp at hc
                | ok outPath =>
                  simp only [hop] at hc
                  by_cases h4 : oxf = oyf
                  · simp [h4] at hc
                  · simp only [if_neg h4] at hc
                    cases oxf with
                    | other i => simp at hc
                    | str ox =>
                      cases oyf with
                      | other i => simp at hc
                      | str oy =>
                        cases hoc : parse_crs oc with
                        | error e => simp only [hoc] at hc; simp at hc
                        | ok outC =>
                          simp only [hoc] at hc
                          cases hxy : XYTableToPoint fs (TableArg.frame df) none ix iy none (optToSpec inC) with
                          | mk ev1 r1 =>
                            simp only [hxy] at hc
                            cases r1 with
                            | error e => simp at hc
                            | ok g =>
                              cases hpr : Project (fun _ => none) toCRS (DatasetArg.gds g) none (optToSpec outC) with
                              | mk ev2 r2 =>
                                simp only [hpr] at hc
                                cases r2 with
                                | error e => simp at hc
                                | ok g2 =>
                                  cases hxs : exMapM Val.ptX (g2.df.getCol "geometry") with
                                  | error e => simp only [hxs] at hc; simp at hc
                                  | ok xs =>
                                    simp only [hxs] at hc
                                    cases hys : exMapM Val.ptY ((g2.df.setCol ox (xs.map Val.num)).getCol "geometry") with
                                    | error e => simp only [hys] at hc; simp at hc
                                    | ok ys =>
                                      simp only [hys] at hc
                                      simp only [Prod.mk.injEq, Except.ok.injEq] at hc
                                      refine ⟨df, ix, iy, ox, oy, inC, outC, g, g2, xs, ys,
                                        rfl, rfl, rfl, rfl, rfl,
                                        not_not.mp h2, not_not.mp h3,
                                        fun hxx => h4 (by rw [hxx]),
                                        rfl, rfl, ?_, ⟨ev1, hxy⟩, ⟨ev2, hpr⟩, hxs, hys, ?_⟩
                                      · intro ho
                                        rw [ho] at hop
                                        have hout : outPath = none := by
                                          simp at hop
                                          try exact hop.symm
                                          try exact hop
                                        rw [← hc.2.2, hout]
                                      · exact hc.2.1.symm

theorem GDF.set_crs_ok_df (g : GDF) (c : Option CRS) (g1 : GDF)
    (h : GDF.set_crs g c = .ok g1) : g1.df = g.df := by
  unfold GDF.set_crs at h
  cases hg : g.crs with
  | none =>
    simp only [hg, Except.ok.injEq] at h
    rw [← h]
  | some old =>
    simp only [hg] at h
    by_cases hco : some old = c
    · rw [if_pos hco] at h
      simp only [Except.ok.injEq] at h
      rw [← h]
    · rw [if_neg hco] at h
      simp at h

theorem xyTagCRS_ok_df (g0 : GDF) (cs : CRSpec) (g1 : GDF)
    (h : xyTagCRS g0 cs = .ok g1) : g1.df = g0.df := by
  unfold xyTagCRS at h
  by_cases hcs : cs = CRSpec.pynone
  · rw [if_pos hcs] at h
    simp only [Except.ok.injEq] at h
    rw [← h]
  · rw [if_neg hcs] at h
    cases hpc : parse_crs cs with
    | error e => simp only [hpc] at h; simp at h
    | ok c =>
      simp only [hpc] at h
      exact GDF.set_crs_ok_df g0 c g1 h

theorem xyFinish_ok_df (g0 : GDF) (ofc : Option String) (cs : CRSpec)
    (ev : List Event) (g1 : GDF) (h : xyFinish g0 ofc cs = (ev, .ok g1)) :
    g1.df = g0.df := by
  unfold xyFinish at h
  cases ht : xyTagCRS g0 cs with
  | error e => simp only [ht] at h; simp at h
  | ok gt =>
    simp only [ht] at h
    have hdf := xyTagCRS_ok_df g0 cs gt ht
    cases ofc with
    | some p =>
      simp only [Prod.mk.injEq, Except.ok.injEq] at h
      rw [← h.2]
      exact hdf
    | none =>
      simp only [Prod.mk.injEq, Except.ok.injEq] at h
      rw [← h.2]
      exact hdf

theorem XYTableToPoint_frame_ok (fs : FileSys) (df : DF) (x y : String)
    (cs : CRSpec) (ev1 : List Event) (g : GDF)
    (h : XYTableToPoint fs (TableArg.frame df) none x y none cs = (ev1, .ok g)) :
    ∃ pts, points_from_xy (df.getCol x) (df.getCol y) none = .ok pts ∧
      g.df = df.setCol "geometry" pts := by
  have h2 : xyBody df none x y none cs = (ev1, .ok g) := h
  unfold xyBody at h2
  by_cases hx : x ∉ df.names
  · rw [if_pos hx] at h2; simp at h2
  · rw [if_neg hx] at h2
    by_cases hy : y ∉ df.names
    · rw [if_pos hy] at h2; simp at h2
    · rw [if_neg hy] at h2
      cases hpts : points_from_xy (df.getCol x) (df.getCol y) none with
      | error e => simp only [hpts] at h2; simp at h2
      | ok pts =>
        simp only [hpts] at h2
        exact ⟨pts, rfl,
          xyFinish_ok_df ⟨df.setCol "geometry" pts, none⟩ none cs ev1 g h2⟩

theorem GDF.to_crs_ok (toCRS : Reproj) (g : GDF) (oc : Option CRS) (g3 : GDF)
    (h : GDF.to_crs toCRS g oc = .ok g3) :
    ∃ f pts, exMapM (transformVal f) (g.df.getCol "geometry") = .ok pts ∧
      g3.df = g.df.setCol "geometry" pts := by
  unfold GDF.to_crs at h
  cases oc with
  | none => simp at h
  | some target =>
    cases hsrc : g.crs with
    | none => simp only [hsrc] at h; simp at h
    | some src =>
      simp only [hsrc] at h
      cases hmap : exMapM (transformVal (toCRS src target)) (g.df.getCol "geometry") with
      | error e => simp only [hmap] at h; simp at h
      | ok pts =>
        simp only [hmap, Except.ok.injEq] at h
        exact ⟨toCRS src target, pts, hmap, by rw [← h]⟩

theorem projBody_ok_df (toCRS : Reproj) (g : GDF) (cs : CRSpec)
    (ev2 : List Event) (g2 : GDF)
    (h : projBody toCRS g none cs = (ev2, .ok g2)) :
    g2.df = g.df ∨
      ∃ f pts, exMapM (transformVal f) (g.df.getCol "geometry") = .ok pts ∧
        g2.df = g.df.setCol "geometry" pts := by
  unfold projBody at h
  by_cases hcs : cs = CRSpec.pynone
  · rw [if_pos hcs] at h
    simp only [projWrite, Prod.mk.injEq, Except.ok.injEq] at h
    left
    rw [← h.2]
  · rw [if_neg hcs] at h
    cases hpc : parse_crs cs with
    | error e => simp only [hpc] at h; simp at h
    | ok oc =>
      simp only [hpc] at h
      cases htc : GDF.to_crs toCRS g oc with
      | error e => simp only [htc] at h; simp at h
      | ok gt =>
        simp only [htc] at h
        simp only [projWrite, Prod.mk.injEq, Except.ok.injEq] at h
        right
        obtain ⟨f, pts, hm, hd⟩ := GDF.to_crs_ok toCRS g oc gt htc
        refine ⟨f, pts, hm, ?_⟩
        rw [← h.2]
        exact hd

theorem Project_gds_ok (gfs : GeoFileSys) (toCRS : Reproj) (g : GDF)
    (cs : CRSpec) (ev2 : List Event) (g2 : GDF)
    (h : Project gfs toCRS (DatasetArg.gds g) none cs = (ev2, .ok g2)) :
    g2.df = g.df ∨
      ∃ f pts, exMapM (transformVal f) (g.df.getCol "geometry") = .ok pts ∧
        g2.df = g.df.setCol "geometry" pts :=
  projBody_ok_df toCRS g cs ev2 g2 h

theorem pyIsdecimal_isnumeric (s : String) (h : pyIsdecimal s = true) :
    pyIsnumeric s = true := by
  unfold pyIsdecimal at h
  unfold pyIsnumeric
  rw [Bool.and_eq_true] at h ⊢
  refine ⟨h.1, ?_⟩
  rw [List.all_eq_true] at h ⊢
  intro c hc
  have hd := h.2 c hc
  simp only [pyIsNumericChar, hd, Bool.true_or]

/-- C3 (amended): for every specification that is an int, a string of
decimal digits, a non-numeric string, a pre-resolved CRS handle, or
absent, `parse_crs` returns a canonical CRS or the no-CRS sentinel
without raising, and any other type raises the invalid-CRS `ValueError`
— but a numeric string that is not composed of decimal digits (such as
"½") makes the uncaught `ValueError` of `int()` escape instead of
returning. -/
theorem parse_crs_total_on_known_forms :
    (∀ n : Int, ∃ r, parse_crs (CRSpec.int n) = Except.ok r) ∧
    (∀ s : String, pyIsdecimal s = true →
      ∃ r, parse_crs (CRSpec.str s) = Except.ok r) ∧
    (∀ s : String, pyIsnumeric s = false →
      ∃ r, parse_crs (CRSpec.str s) = Except.ok r) ∧
    (∀ c : CRS, parse_crs (CRSpec.crs c) = Except.ok (some c)) ∧
    parse_crs CRSpec.pynone = Except.ok none ∧
    (∀ i : Nat, parse_crs (CRSpec.other i)
      = Except.error (PyErr.valueError invalidCRSMsg)) ∧
    (∀ (s : String) (e : PyErr), pyIsnumeric s = true →
      pyInt? s = .error e →
      parse_crs (CRSpec.str s) = Except.error e) := by
  refine ⟨fun n => ⟨some (CRS.from_epsg n), rfl⟩, fun s hd => ?_,
    fun s hf => ?_, fun c => rfl, rfl, fun i => rfl, fun s e hn he => ?_⟩
  · have hn := pyIsdecimal_isnumeric s hd
    refine ⟨some (CRS.from_epsg (pyIntVal s)), ?_⟩
    simp only [parse_crs, pyInt?]
    rw [if_pos hn, if_pos hd]
  · refine ⟨some (CRS.from_wkt s), ?_⟩
    simp only [parse_crs]
    rw [if_neg (by simp [hf])]
  · simp only [parse_crs]
    rw [if_pos hn, he]

/-- Counterexample to C3 as stated: "½" is a numeric string
(`str.isnumeric` is true for it), yet the resolver does not return — the
uncaught `ValueError` raised by `int("½")` escapes `parse_crs`. -/
theorem parse_crs_numeric_string_raises_cex :
    pyIsnumeric "½" = true ∧
    parse_crs (CRSpec.str "½")
      = Except.error
          (PyErr.valueError "invalid literal for int() with base 10: ½") :=
  ⟨rfl, rfl⟩

/-- Witness for the amended C3: decimal and non-numeric strings resolve
without raising, and the numeric non-decimal string "½" raises the
`int()` error. -/
theorem parse_crs_total_on_known_forms_witness :
    (∃ r, parse_crs (CRSpec.str "4326") = Except.ok r) ∧
    (∃ r, parse_crs (CRSpec.str "GEOGCS[WGS 84]") = Except.ok r) ∧
    parse_crs (CRSpec.str "½")
      = Except.error
          (PyErr.valueError "invalid literal for int() with base 10: ½") :=
  ⟨parse_crs_total_on_known_forms.2.1 "4326" rfl,
   parse_crs_total_on_known_forms.2.2.1 "GEOGCS[WGS 84]" rfl,
   parse_crs_total_on_known_forms.2.2.2.2.2.2 "½"
     (PyErr.valueError "invalid literal for int() with base 10: ½")
     rfl rfl⟩

/-- C4: `parse_crs` dispatches in the fixed order int (EPSG code), then
`isnumeric` string (fed to `int()` as an authority code), then any other
string (WKT), then CRS handle (pass-through), then absent (no-CRS
sentinel, not an error), first match winning; every string composed
entirely of decimal digits is parsed as an authority code, and no
numeric string is ever treated as WKT. -/
theorem parse_crs_dispatch_order :
    (∀ n : Int, parse_crs (CRSpec.int n) = Except.ok (some (CRS.epsg n))) ∧
    (∀ (s : String) (k : Int), pyIsnumeric s = true → pyInt? s = .ok k →
      parse_crs (CRSpec.str s) = Except.ok (some (CRS.epsg k))) ∧
    (∀ s : String, pyIsnumeric s = false →
      parse_crs (CRSpec.str s) = Except.ok (some (CRS.wkt s))) ∧
    (∀ c : CRS, parse_crs (CRSpec.crs c) = Except.ok (some c)) ∧
    parse_crs CRSpec.pynone = Except.ok none ∧
    (∀ s : String, pyIsdecimal s = true →
      parse_crs (CRSpec.str s) = Except.ok (some (CRS.epsg (pyIntVal s)))) ∧
    (∀ (s w : String), pyIsnumeric s = true →
      parse_crs (CRSpec.str s) ≠ Except.ok (some (CRS.wkt w))) := by
  refine ⟨fun n => rfl, fun s k hn hk => ?_, fun s hf => ?_, fun c => rfl,
    rfl, fun s hd => ?_, fun s w hn hcon => ?_⟩
  · simp only [parse_crs]
    rw [if_pos hn, hk]
    rfl
  · simp only [parse_crs]
    rw [if_neg (by simp [hf])]
    rfl
  · have hn := pyIsdecimal_isnumeric s hd
    simp only [parse_crs, pyInt?]
    rw [if_pos hn, if_pos hd]
    rfl
  · simp only [parse_crs] at hcon
    rw [if_pos hn] at hcon
    cases hk : pyInt? s with
    | error e => rw [hk] at hcon; simp at hcon
    | ok k =>
      rw [hk] at hcon
      simp [CRS.from_epsg] at hcon

/-- Witness for C4: the ASCII digit string "4326" and the Arabic-Indic
digit string "١٢٣" both resolve through the authority-code branch, and a
non-numeric string resolves as WKT. -/
theorem parse_crs_dispatch_order_witness :
    pyIsdecimal "4326" = true ∧
    parse_crs (CRSpec.str "4326")
      = Except.ok (some (CRS.epsg (pyIntVal "4326"))) ∧
    pyIsdecimal "١٢٣" = true ∧
    parse_crs (CRSpec.str "١٢٣")
      = Except.ok (some (CRS.epsg (pyIntVal "١٢٣"))) ∧
    pyIsnumeric "GEOGCS[WGS 84]" = false ∧
    parse_crs (CRSpec.str "GEOGCS[WGS 84]")
      = Except.ok (some (CRS.wkt "GEOGCS[WGS 84]")) :=
  ⟨rfl, parse_crs_dispatch_order.2.2.2.2.2.1 "4326" rfl,
   rfl, parse_crs_dispatch_order.2.2.2.2.2.1 "١٢٣" rfl,
   rfl, parse_crs_dispatch_order.2.2.1 "GEOGCS[WGS 84]" rfl⟩

/-- C5: `Project` fails with the undefined-source-CRS error ("Cannot
transform naive geometries") whenever a genuine (non-absent) target CRS
is supplied and the input geometry set carries no CRS tag. -/
theorem Project_fails_without_source_crs (gfs : GeoFileSys) (toCRS : Reproj)
    (g : GDF) (od : Option String) (cs : CRSpec) (c : CRS)
    (hres : parse_crs cs = .ok (some c)) (hcrs : g.crs = none) :
    Project gfs toCRS (DatasetArg.gds g) od cs
      = ([], .error (.valueError naiveGeomMsg)) := by
  have hcs : cs ≠ CRSpec.pynone := by
    intro h
    rw [h] at hres
    simp [parse_crs] at hres
  show projBody toCRS g od cs = _
  unfold projBody
  rw [if_neg hcs, hres]
  simp [GDF.to_crs, hcrs]

/-- Witness for C5: a set constructed by `XYTableToPoint` with
`coordinate_system` absent carries no CRS tag, and reprojecting it to
EPSG 4326 fails with the naive-geometry error. -/
theorem Project_fails_without_source_crs_witness :
    (XYTableToPoint (fun _ => none)
        (TableArg.frame ⟨[("x", [Val.num 1]), ("y", [Val.num 2])]⟩)
        none "x" "y" none CRSpec.pynone).2
      = Except.ok ⟨⟨[("x", [Val.num 1]), ("y", [Val.num 2]),
          ("geometry", [Val.pt 1 2 none])]⟩, none⟩ ∧
    Project (fun _ => none) (fun _ _ p => p)
        (DatasetArg.gds ⟨⟨[("x", [Val.num 1]), ("y", [Val.num 2]),
          ("geometry", [Val.pt 1 2 none])]⟩, none⟩)
        none (CRSpec.int 4326)
      = ([], .error (.valueError naiveGeomMsg)) :=
  ⟨rfl, Project_fails_without_source_crs (fun _ => none) (fun _ _ p => p)
    ⟨⟨[("x", [Val.num 1]), ("y", [Val.num 2]),
      ("geometry", [Val.pt 1 2 none])]⟩, none⟩
    none (CRSpec.int 4326) (CRS.epsg 4326) rfl rfl⟩

/-- C6: for every geometry set, `Project` with an absent target CRS emits
the user-visible warning and returns the input set unchanged (identity on
coordinates and CRS tag); it never raises in this case. -/
theorem Project_no_target_passthrough (gfs : GeoFileSys) (toCRS : Reproj)
    (g : GDF) :
    Project gfs toCRS (DatasetArg.gds g) none CRSpec.pynone
      = ([Event.stdout projectNoTargetWarning], .ok g) := rfl

/-- C2 (amended): with the input file present, a call whose `in_x_field`
equals `in_y_field` raises the invalid-field `ValueError` before any
transformation work and before any write, but only after the input table
file has been read: the event trace of the failing run is exactly the one
file read. -/
theorem ct_same_infield_after_read (toCRS : Reproj) (fs : FileSys)
    (stdin itp : String) (v : PyObj) (ic : CRSpec) (otp : Option PyObj)
    (oxf oyf : PyObj) (oc : CRSpec) (df : DF) (hfs : fs itp = some df) :
    coordinate_transform toCRS fs stdin itp v v ic otp oxf oyf oc
      = ([Event.fileRead itp],
         .error (.valueError "in_x_field same as in_y_field"))
    ∧ Event.fileRead itp
        ∈ (coordinate_transform toCRS fs stdin itp v v ic otp oxf oyf oc).1 := by
  have hcc : ct_compute toCRS fs itp v v ic otp oxf oyf oc
      = ([Event.fileRead itp],
         .error (.valueError "in_x_field same as in_y_field")) := by
    unfold ct_compute
    simp [hfs]
  refine ⟨?_, ?_⟩
  · unfold coordinate_transform
    rw [hcc]
  · unfold coordinate_transform
    rw [hcc]
    simp

/-- Counterexample to C2 as stated: in this failing run the input table
file IS read (the read event is in the trace) before the
`InvalidFieldNameError` is raised, so the error is not raised before all
file I/O. -/
theorem ct_same_infield_reads_first_cex :
    coordinate_transform (fun _ _ p => p)
        (fun p => if p = "t.csv"
          then some ⟨[("x", [Val.num 1]), ("y", [Val.num 2])]⟩ else none)
        "n" "t.csv" (PyObj.str "x") (PyObj.str "x") (CRSpec.int 4326)
        (some (PyObj.str "o.csv")) (PyObj.str "lon") (PyObj.str "lat")
        (CRSpec.int 3857)
      = ([Event.fileRead "t.csv"],
         .error (.valueError "in_x_field same as in_y_field"))
    ∧ Event.fileRead "t.csv"
        ∈ (coordinate_transform (fun _ _ p => p)
            (fun p => if p = "t.csv"
              then some ⟨[("x", [Val.num 1]), ("y", [Val.num 2])]⟩ else none)
            "n" "t.csv" (PyObj.str "x") (PyObj.str "x") (CRSpec.int 4326)
            (some (PyObj.str "o.csv")) (PyObj.str "lon") (PyObj.str "lat")
            (CRSpec.int 3857)).1 := by
  refine ⟨rfl, ?_⟩
  rw [show (coordinate_transform (fun _ _ p => p)
      (fun p => if p = "t.csv"
        then some ⟨[("x", [Val.num 1]), ("y", [Val.num 2])]⟩ else none)
      "n" "t.csv" (PyObj.str "x") (PyObj.str "x") (CRSpec.int 4326)
      (some (PyObj.str "o.csv")) (PyObj.str "lon") (PyObj.str "lat")
      (CRSpec.int 3857)).1 = [Event.fileRead "t.csv"] from rfl]
  simp

/-- Witness for the amended C2 at a concrete input. -/
theorem ct_same_infield_after_read_witness :
    (fun p => if p = "w.csv"
        then some (⟨[("a", [Val.num 5])]⟩ : DF) else none) "w.csv"
      = some (⟨[("a", [Val.num 5])]⟩ : DF) ∧
    coordinate_transform (fun _ _ p => p)
        (fun p => if p = "w.csv"
          then some (⟨[("a", [Val.num 5])]⟩ : DF) else none)
        "" "w.csv" (PyObj.str "a") (PyObj.str "a") CRSpec.pynone
        none (PyObj.str "u") (PyObj.str "v") CRSpec.pynone
      = ([Event.fileRead "w.csv"],
         .error (.valueError "in_x_field same as in_y_field")) :=
  ⟨rfl, (ct_same_infield_after_read (fun _ _ p => p)
    (fun p => if p = "w.csv"
      then some (⟨[("a", [Val.num 5])]⟩ : DF) else none)
    "" "w.csv" (PyObj.str "a") CRSpec.pynone none
    (PyObj.str "u") (PyObj.str "v") CRSpec.pynone
    ⟨[("a", [Val.num 5])]⟩ rfl).1⟩

/-- C1 (amended): when the computation succeeds, the output path equals
the input path and the confirmation line is anything other than "Y", the
persist step raises the not-overwritten signal and nothing is written to
disk — but the computed table is NOT returned to the caller: the raise
aborts the call, so the caller sees the exception instead of the frame. -/
theorem ct_overwrite_declined (toCRS : Reproj) (fs : FileSys)
    (stdin itp : String) (ixf iyf : PyObj) (ic : CRSpec) (otp : Option PyObj)
    (oxf oyf : PyObj) (oc : CRSpec) (ev : List Event) (d : DF)
    (hc : ct_compute toCRS fs itp ixf iyf ic otp oxf oyf oc
      = (ev, .ok (d, some itp)))
    (hn : stdin ≠ "Y") :
    coordinate_transform toCRS fs stdin itp ixf iyf ic otp oxf oyf oc
      = (ev ++ [Event.stdout overwriteWarnMsg, Event.stdinRead],
         .error (.exception notOverwrittenMsg))
    ∧ (∀ q, Event.fileWrite q
        ∉ ev ++ [Event.stdout overwriteWarnMsg, Event.stdinRead]) := by
  refine ⟨?_, ?_⟩
  · unfold coordinate_transform
    rw [hc]
    simp [ct_persist, hn]
  · intro q
    have hw := ct_compute_no_fileWrite toCRS fs itp ixf iyf ic otp oxf oyf oc q
    rw [hc] at hw
    simp only [List.mem_append, not_or]
    exact ⟨hw, by simp⟩

/-- Counterexample to C1 as stated: a concrete declined-overwrite run
whose whole result is the not-overwritten exception — the trace holds no
write, and no computed table is returned to the caller. -/
theorem ct_overwrite_declined_cex :
    coordinate_transform (fun _ _ p => p)
        (fun p => if p = "t.csv"
          then some ⟨[("x", [Val.num 1]), ("y", [Val.num 2])]⟩ else none)
        "n" "t.csv" (PyObj.str "x") (PyObj.str "y") (CRSpec.int 4326)
        (some (PyObj.str "t.csv")) (PyObj.str "lon") (PyObj.str "lat")
        (CRSpec.int 3857)
      = ([Event.fileRead "t.csv", Event.stdout overwriteWarnMsg,
          Event.stdinRead],
         .error (.exception notOverwrittenMsg)) := rfl

/-- Witness for the amended C1 at a concrete declined run (response
"no"). -/
theorem ct_overwrite_declined_witness :
    ct_compute (fun _ _ p => p)
        (fun p => if p = "in.csv"
          then some ⟨[("x", [Val.num 3]), ("y", [Val.num 4])]⟩ else none)
        "in.csv" (PyObj.str "x") (PyObj.str "y") (CRSpec.int 4326)
        (some (PyObj.str "in.csv")) (PyObj.str "lon") (PyObj.str "lat")
        (CRSpec.int 3857)
      = ([Event.fileRead "in.csv"],
         .ok (⟨[("x", [Val.num 3]), ("y", [Val.num 4]),
           ("lon", [Val.num 3]), ("lat", [Val.num 4])]⟩, some "in.csv")) ∧
    coordinate_transform (fun _ _ p => p)
        (fun p => if p = "in.csv"
          then some ⟨[("x", [Val.num 3]), ("y", [Val.num 4])]⟩ else none)
        "no" "in.csv" (PyObj.str "x") (PyObj.str "y") (CRSpec.int 4326)
        (some (PyObj.str "in.csv")) (PyObj.str "lon") (PyObj.str "lat")
        (CRSpec.int 3857)
      = ([Event.fileRead "in.csv", Event.stdout overwriteWarnMsg,
          Event.stdinRead],
         .error (.exception notOverwrittenMsg)) :=
  ⟨rfl, (ct_overwrite_declined (fun _ _ p => p)
    (fun p => if p = "in.csv"
      then some ⟨[("x", [Val.num 3]), ("y", [Val.num 4])]⟩ else none)
    "no" "in.csv" (PyObj.str "x") (PyObj.str "y") (CRSpec.int 4326)
    (some (PyObj.str "in.csv")) (PyObj.str "lon") (PyObj.str "lat")
    (CRSpec.int 3857)
    [Event.fileRead "in.csv"]
    ⟨[("x", [Val.num 3]), ("y", [Val.num 4]),
      ("lon", [Val.num 3]), ("lat", [Val.num 4])]⟩
    rfl (by decide)).1⟩

/-- C9: when the computation succeeds and the output path equals the
input path, the run prints the overwrite warning to stdout and blocks on
one line of interactive input, and the file is written if and only if
that line is exactly "Y". -/
theorem ct_overwrite_guard (toCRS : Reproj) (fs : FileSys)
    (stdin itp : String) (ixf iyf : PyObj) (ic : CRSpec) (otp : Option PyObj)
    (oxf oyf : PyObj) (oc : CRSpec) (ev : List Event) (d : DF)
    (hc : ct_compute toCRS fs itp ixf iyf ic otp oxf oyf oc
      = (ev, .ok (d, some itp))) :
    Event.stdout overwriteWarnMsg
      ∈ (coordinate_transform toCRS fs stdin itp ixf iyf ic otp oxf oyf oc).1
    ∧ Event.stdinRead
      ∈ (coordinate_transform toCRS fs stdin itp ixf iyf ic otp oxf oyf oc).1
    ∧ (Event.fileWrite itp
        ∈ (coordinate_transform toCRS fs stdin itp ixf iyf ic otp oxf oyf oc).1
       ↔ stdin = "Y") := by
  have hw := ct_compute_no_fileWrite toCRS fs itp ixf iyf ic otp oxf oyf oc itp
  rw [hc] at hw
  by_cases hs : stdin = "Y"
  · have heq : coordinate_transform toCRS fs stdin itp ixf iyf ic otp oxf oyf oc
        = (ev ++ [Event.stdout overwriteWarnMsg, Event.stdinRead,
            Event.fileWrite itp], .ok d) := by
      unfold coordinate_transform
      rw [hc]
      simp [ct_persist, hs]
    rw [heq]
    simp [hs]
  · have heq : coordinate_transform toCRS fs stdin itp ixf iyf ic otp oxf oyf oc
        = (ev ++ [Event.stdout overwriteWarnMsg, Event.stdinRead],
           .error (.exception notOverwrittenMsg)) := by
      unfold coordinate_transform
      rw [hc]
      simp [ct_persist, hs]
    rw [heq]
    simp [hs, hw]

/-- Witness for C9 at a concrete affirmative run: the warning is printed,
one stdin line is read, and the input file is overwritten exactly because
the line is "Y". -/
theorem ct_overwrite_guard_witness :
    ct_compute (fun _ _ p => p)
        (fun p => if p = "s.csv"
          then some ⟨[("x", [Val.num 7]), ("y", [Val.num 8])]⟩ else none)
        "s.csv" (PyObj.str "x") (PyObj.str "y") (CRSpec.int 4326)
        (some (PyObj.str "s.csv")) (PyObj.str "lon") (PyObj.str "lat")
        (CRSpec.int 3857)
      = ([Event.fileRead "s.csv"],
         .ok (⟨[("x", [Val.num 7]), ("y", [Val.num 8]),
           ("lon", [Val.num 7]), ("lat", [Val.num 8])]⟩, some "s.csv")) ∧
    (Event.fileWrite "s.csv"
      ∈ (coordinate_transform (fun _ _ p => p)
          (fun p => if p = "s.csv"
            then some ⟨[("x", [Val.num 7]), ("y", [Val.num 8])]⟩ else none)
          "Y" "s.csv" (PyObj.str "x") (PyObj.str "y") (CRSpec.int 4326)
          (some (PyObj.str "s.csv")) (PyObj.str "lon") (PyObj.str "lat")
          (CRSpec.int 3857)).1
     ↔ "Y" = "Y") :=
  ⟨rfl, (ct_overwrite_guard (fun _ _ p => p)
    (fun p => if p = "s.csv"
      then some ⟨[("x", [Val.num 7]), ("y", [Val.num 8])]⟩ else none)
    "Y" "s.csv" (PyObj.str "x") (PyObj.str "y") (CRSpec.int 4326)
    (some (PyObj.str "s.csv")) (PyObj.str "lon") (PyObj.str "lat")
    (CRSpec.int 3857)
    [Event.fileRead "s.csv"]
    ⟨[("x", [Val.num 7]), ("y", [Val.num 8]),
      ("lon", [Val.num 7]), ("lat", [Val.num 8])]⟩
    rfl).2.2⟩

theorem coordinate_transform_ok_inv (toCRS : Reproj) (fs : FileSys)
    (stdin itp : String) (ixf iyf : PyObj) (ic : CRSpec) (otp : Option PyObj)
    (oxf oyf : PyObj) (oc : CRSpec) (ev : List Event) (res : DF)
    (hc : coordinate_transform toCRS fs stdin itp ixf iyf ic otp oxf oyf oc
      = (ev, .ok res)) :
    ∃ ev0 op, ct_compute toCRS fs itp ixf iyf ic otp oxf oyf oc
      = (ev0, .ok (res, op)) := by
  unfold coordinate_transform at hc
  cases hcc : ct_compute toCRS fs itp ixf iyf ic otp oxf oyf oc with
  | mk ev0 r0 =>
    simp only [hcc] at hc
    cases r0 with
    | error e => simp at hc
    | ok dop =>
      obtain ⟨d, op⟩ := dop
      cases hp : ct_persist op itp stdin d with
      | mk ev2 r2 =>
        simp only [hp] at hc
        cases r2 with
        | error e2 => simp at hc
        | ok d2 =>
          have hd2 : d2 = d := ct_persist_ok_val op itp stdin d d2 ev2 hp
          simp only [Prod.mk.injEq, Except.ok.injEq] at hc
          refine ⟨ev0, op, ?_⟩
          have hdr : d = res := by rw [← hd2, hc.2]
          rw [hdr]

/-- C10: for every successful call of `coordinate_transform`, the
returned table contains no column named "geometry" — the name is reserved
by the pipeline's internal point column, whose contents replace any input
column of that name and which is dropped before the table is returned. -/
theorem ct_result_has_no_geometry_column (toCRS : Reproj) (fs : FileSys)
    (stdin itp : String) (ixf iyf : PyObj) (ic : CRSpec) (otp : Option PyObj)
    (oxf oyf : PyObj) (oc : CRSpec) (ev : List Event) (res : DF)
    (hc : coordinate_transform toCRS fs stdin itp ixf iyf ic otp oxf oyf oc
      = (ev, .ok res)) :
    "geometry" ∉ res.names := by
  obtain ⟨ev0, op, hcc⟩ := coordinate_transform_ok_inv toCRS fs stdin itp
    ixf iyf ic otp oxf oyf oc ev res hc
  obtain ⟨df, ix, iy, ox, oy, inC, outC, g, g2, xs, ys,
    h1, h2, h3, h4, h5, h6, h7, h8, h9, h10, h11, h12, h13, h14, h15, hres⟩ :=
    ct_compute_ok_inv toCRS fs itp ixf iyf ic otp oxf oyf oc ev0 res op hcc
  rw [hres]
  intro hmem
  rw [DF.mem_names_dropCol] at hmem
  exact hmem.2 rfl

/-- Witness for C10: an input table that has a "geometry" column, whose
successful run returns a table without one. -/
theorem ct_result_has_no_geometry_column_witness :
    "geometry" ∈ (⟨[("x", [Val.num 1]), ("y", [Val.num 2]),
      ("geometry", [Val.num 9])]⟩ : DF).names ∧
    "geometry" ∉ (⟨[("x", [Val.num 1]), ("y", [Val.num 2]),
      ("lon", [Val.num 1]), ("lat", [Val.num 2])]⟩ : DF).names :=
  ⟨by decide, ct_result_has_no_geometry_column (fun _ _ p => p)
    (fun p => if p = "g.csv"
      then some ⟨[("x", [Val.num 1]), ("y", [Val.num 2]),
        ("geometry", [Val.num 9])]⟩ else none)
    "" "g.csv" (PyObj.str "x") (PyObj.str "y") (CRSpec.int 4326)
    none (PyObj.str "lon") (PyObj.str "lat") (CRSpec.int 3857)
    [Event.fileRead "g.csv"]
    ⟨[("x", [Val.num 1]), ("y", [Val.num 2]),
      ("lon", [Val.num 1]), ("lat", [Val.num 2])]⟩
    rfl⟩

/-- C8: whenever a run fails, the error is surfaced and no output file is
written; the compute stages (1-4) never emit a file write, so the persist
stage is the only writer; and with no output path requested the in-memory
result is returned with nothing written. -/
theorem ct_stage_isolation :
    (∀ (toCRS : Reproj) (fs : FileSys) (stdin itp : String) (ixf iyf : PyObj)
       (ic : CRSpec) (otp : Option PyObj) (oxf oyf : PyObj) (oc : CRSpec)
       (ev : List Event) (e : PyErr) (q : String),
       coordinate_transform toCRS fs stdin itp ixf iyf ic otp oxf oyf oc
         = (ev, .error e) →
       Event.fileWrite q ∉ ev) ∧
    (∀ (toCRS : Reproj) (fs : FileSys) (itp : String) (ixf iyf : PyObj)
       (ic : CRSpec) (otp : Option PyObj) (oxf oyf : PyObj) (oc : CRSpec)
       (q : String),
       Event.fileWrite q ∉ (ct_compute toCRS fs itp ixf iyf ic otp oxf oyf oc).1) ∧
    (∀ (toCRS : Reproj) (fs : FileSys) (stdin itp : String) (ixf iyf : PyObj)
       (ic : CRSpec) (oxf oyf : PyObj) (oc : CRSpec)
       (ev : List Event) (r : Except PyErr DF) (q : String),
       coordinate_transform toCRS fs stdin itp ixf iyf ic none oxf oyf oc
         = (ev, r) →
       Event.fileWrite q ∉ ev) ∧
    (∀ (toCRS : Reproj) (fs : FileSys) (stdin itp : String) (ixf iyf : PyObj)
       (ic : CRSpec) (oxf oyf : PyObj) (oc : CRSpec)
       (ev0 : List Event) (d : DF) (op : Option String),
       ct_compute toCRS fs itp ixf iyf ic none oxf oyf oc = (ev0, .ok (d, op)) →
       coordinate_transform toCRS fs stdin itp ixf iyf ic none oxf oyf oc
         = (ev0, .ok d)) := by
  have hop_none : ∀ (toCRS : Reproj) (fs : FileSys) (itp : String)
      (ixf iyf : PyObj) (ic : CRSpec) (oxf oyf : PyObj) (oc : CRSpec)
      (ev0 : List Event) (d : DF) (op : Option String),
      ct_compute toCRS fs itp ixf iyf ic none oxf oyf oc = (ev0, .ok (d, op)) →
      op = none := by
    intro toCRS fs itp ixf iyf ic oxf oyf oc ev0 d op hcc
    obtain ⟨df, ix, iy, ox, oy, inC, outC, g, g2, xs, ys,
      h1, h2, h3, h4, h5, h6, h7, h8, h9, h10, hop, h12, h13, h14, h15, hres⟩ :=
      ct_compute_ok_inv toCRS fs itp ixf iyf ic none oxf oyf oc ev0 d op hcc
    exact hop rfl
  refine ⟨coordinate_transform_error_no_fileWrite, ct_compute_no_fileWrite,
    ?_, ?_⟩
  · intro toCRS fs stdin itp ixf iyf ic oxf oyf oc ev r q h
    cases hcc : ct_compute toCRS fs itp ixf iyf ic none oxf oyf oc with
    | mk ev0 r0 =>
      have hw : Event.fileWrite q ∉ ev0 := by
        have h0 := ct_compute_no_fileWrite toCRS fs itp ixf iyf ic none oxf oyf oc q
        rw [hcc] at h0
        exact h0
      unfold coordinate_transform at h
      simp only [hcc] at h
      cases r0 with
      | error e =>
        simp only [Prod.mk.injEq] at h
        rw [← h.1]
        exact hw
      | ok dop =>
        obtain ⟨d, op⟩ := dop
        have hopn : op = none := hop_none toCRS fs itp ixf iyf ic oxf oyf oc ev0 d op hcc
        rw [hopn] at h
        simp only [ct_persist_none, Prod.mk.injEq] at h
        rw [← h.1]
        simp [hw]
  · intro toCRS fs stdin itp ixf iyf ic oxf oyf oc ev0 d op hcc
    have hopn : op = none := hop_none toCRS fs itp ixf iyf ic oxf oyf oc ev0 d op hcc
    unfold coordinate_transform
    rw [hcc, hopn]
    simp [ct_persist_none]

/-- C7 (amended): for every successful call whose output fields avoid
the reserved internal name "geometry": if `out_x_field` (or
`out_y_field`) equals an existing input column name, that column is
replaced in place — it is present in the output, no duplicate column is
created, and it holds exactly the new x- (respectively y-) coordinates
of the reprojected geometry, one per row; every other original column
except one named "geometry" is retained unchanged; and the row count is
unchanged. -/
theorem ct_out_field_collision (toCRS : Reproj) (fs : FileSys)
    (stdin itp : String) (ixf iyf : PyObj) (ic : CRSpec) (otp : Option PyObj)
    (oxf oyf : PyObj) (oc : CRSpec) (ev : List Event) (res df : DF)
    (ox oy : String) (n : Nat)
    (hc : coordinate_transform toCRS fs stdin itp ixf iyf ic otp oxf oyf oc
      = (ev, .ok res))
    (hfs : fs itp = some df)
    (hox : oxf = PyObj.str ox) (hoy : oyf = PyObj.str oy)
    (hxg : ox ≠ "geometry") (hyg : oy ≠ "geometry")
    (hnd : df.names.Nodup) (hun : DF.uniform df n) :
    (ox ∈ res.names ∧ oy ∈ res.names ∧ res.names.Nodup) ∧
    (∀ c ∈ df.names, c ≠ ox → c ≠ oy → c ≠ "geometry" →
      c ∈ res.names ∧ res.getCol c = df.getCol c) ∧
    DF.uniform res n ∧
    (∃ (ix iy : String) (inC outC : Option CRS) (g g2 : GDF)
       (xs ys : List Rat) (ev1 ev2 : List Event),
      ixf = PyObj.str ix ∧ iyf = PyObj.str iy ∧
      parse_crs ic = Except.ok inC ∧ parse_crs oc = Except.ok outC ∧
      XYTableToPoint fs (TableArg.frame df) none ix iy none (optToSpec inC)
        = (ev1, Except.ok g) ∧
      Project (fun _ => none) toCRS (DatasetArg.gds g) none (optToSpec outC)
        = (ev2, Except.ok g2) ∧
      exMapM Val.ptX (g2.df.getCol "geometry") = Except.ok xs ∧
      exMapM Val.ptY ((g2.df.setCol ox (xs.map Val.num)).getCol "geometry")
        = Except.ok ys ∧
      res.getCol ox = xs.map Val.num ∧ res.getCol oy = ys.map Val.num ∧
      xs.length = n ∧ ys.length = n) := by
  obtain ⟨ev0, op, hcc⟩ := coordinate_transform_ok_inv toCRS fs stdin itp
    ixf iyf ic otp oxf oyf oc ev res hc
  obtain ⟨df2, ix, iy, ox2, oy2, inC, outC, g, g2, xs, ys,
    hfs2, hix, hiy, hox2, hoy2, hixm, hiym, hxyne, hpic, hpoc, hopn,
    ⟨ev1, hXY⟩, ⟨ev2, hPrj⟩, hxs, hys, hres⟩ :=
    ct_compute_ok_inv toCRS fs itp ixf iyf ic otp oxf oyf oc ev0 res op hcc
  have hdfe : df = df2 := by
    rw [hfs] at hfs2
    exact Option.some.inj hfs2
  subst hdfe
  have hoxe : ox = ox2 := by
    rw [hox] at hox2
    exact PyObj.str.inj hox2
  subst hoxe
  have hoye : oy = oy2 := by
    rw [hoy] at hoy2
    exact PyObj.str.inj hoy2
  subst hoye
  obtain ⟨pts, hpts, hgdf⟩ :=
    XYTableToPoint_frame_ok fs df ix iy (optToSpec inC) ev1 g hXY
  have hptsn : pts.length = n := by
    have h1 := points_from_xy_ok_length (df.getCol ix) (df.getCol iy) pts hpts
    rw [DF.getCol_length_of_uniform df ix n hun hixm,
        DF.getCol_length_of_uniform df iy n hun hiym] at h1
    simpa using h1
  have hgeom_mem : "geometry" ∈ g.df.names := by
    rw [hgdf]
    exact (DF.mem_names_setCol df "geometry" "geometry" pts).mpr (Or.inr rfl)
  have hgnames_sup : ∀ c ∈ df.names, c ∈ g.df.names := by
    intro c hcm
    rw [hgdf]
    exact (DF.mem_names_setCol df "geometry" c pts).mpr (Or.inl hcm)
  have hgget : ∀ c, c ≠ "geometry" → g.df.getCol c = df.getCol c := by
    intro c hcg
    rw [hgdf]
    exact DF.getCol_setCol_ne df "geometry" c pts hcg
  have hgnodup : g.df.names.Nodup := by
    rw [hgdf]
    exact DF.nodup_names_setCol df "geometry" pts hnd
  have hguni : g.df.uniform n := by
    rw [hgdf]
    exact DF.uniform_setCol df "geometry" pts n hun hptsn
  have hggeo_len : (g.df.getCol "geometry").length = n := by
    rw [hgdf, DF.getCol_setCol_self]
    exact hptsn
  have hg2facts : (∀ c, c ≠ "geometry" → g2.df.getCol c = g.df.getCol c) ∧
      (∀ c, c ∈ g.df.names ↔ c ∈ g2.df.names) ∧ g2.df.names.Nodup ∧
      g2.df.uniform n ∧ (g2.df.getCol "geometry").length = n := by
    rcases Project_gds_ok (fun _ => none) toCRS g (optToSpec outC) ev2 g2 hPrj
      with hid | ⟨f, pts2, hmap2, hg2⟩
    · rw [hid]
      exact ⟨fun c _ => rfl, fun c => Iff.rfl, hgnodup, hguni, hggeo_len⟩
    · have hp2n : pts2.length = n := by
        have h2 := exMapM_ok_length _ _ _ hmap2
        rw [hggeo_len] at h2
        exact h2
      refine ⟨?_, ?_, ?_, ?_, ?_⟩
      · intro c hcg
        rw [hg2]
        exact DF.getCol_setCol_ne g.df "geometry" c pts2 hcg
      · intro c
        rw [hg2]
        constructor
        · intro hcm
          exact (DF.mem_names_setCol g.df "geometry" c pts2).mpr (Or.inl hcm)
        · intro hcm
          rcases (DF.mem_names_setCol g.df "geometry" c pts2).mp hcm with h | h
          · exact h
          · rw [h]
            exact hgeom_mem
      · rw [hg2]
        exact DF.nodup_names_setCol g.df "geometry" pts2 hgnodup
      · rw [hg2]
        exact DF.uniform_setCol g.df "geometry" pts2 n hguni hp2n
      · rw [hg2, DF.getCol_setCol_self]
        exact hp2n
  obtain ⟨hG3, hGm, hGnodup, hGuni, hGgeo⟩ := hg2facts
  have hxsn : xs.length = n := by
    have h3 := exMapM_ok_length _ _ _ hxs
    rw [hGgeo] at h3
    exact h3
  have hd1uni : (g2.df.setCol ox (xs.map Val.num)).uniform n :=
    DF.uniform_setCol g2.df ox (xs.map Val.num) n hGuni
      (by rw [List.length_map]; exact hxsn)
  have hd1geo : (g2.df.setCol ox (xs.map Val.num)).getCol "geometry"
      = g2.df.getCol "geometry" :=
    DF.getCol_setCol_ne g2.df ox "geometry" (xs.map Val.num) (Ne.symm hxg)
  have hd1nodup : (g2.df.setCol ox (xs.map Val.num)).names.Nodup :=
    DF.nodup_names_setCol g2.df ox (xs.map Val.num) hGnodup
  have hysn : ys.length = n := by
    have h4 := exMapM_ok_length _ _ _ hys
    rw [hd1geo, hGgeo] at h4
    exact h4
  have hd2nodup :
      ((g2.df.setCol ox (xs.map Val.num)).setCol oy (ys.map Val.num)).names.Nodup :=
    DF.nodup_names_setCol _ oy (ys.map Val.num) hd1nodup
  have hd2uni :
      ((g2.df.setCol ox (xs.map Val.num)).setCol oy (ys.map Val.num)).uniform n :=
    DF.uniform_setCol _ oy (ys.map Val.num) n hd1uni
      (by rw [List.length_map]; exact hysn)
  have hox_d1 : ox ∈ (g2.df.setCol ox (xs.map Val.num)).names :=
    (DF.mem_names_setCol g2.df ox ox (xs.map Val.num)).mpr (Or.inr rfl)
  have hox_d2 : ox ∈ ((g2.df.setCol ox (xs.map Val.num)).setCol oy (ys.map Val.num)).names :=
    (DF.mem_names_setCol _ oy ox (ys.map Val.num)).mpr (Or.inl hox_d1)
  have hoy_d2 : oy ∈ ((g2.df.setCol ox (xs.map Val.num)).setCol oy (ys.map Val.num)).names :=
    (DF.mem_names_setCol _ oy oy (ys.map Val.num)).mpr (Or.inr rfl)
  rw [hres]
  refine ⟨⟨?_, ?_, ?_⟩, ?_, ?_,
    ⟨ix, iy, inC, outC, g, g2, xs, ys, ev1, ev2,
     hix, hiy, hpic, hpoc, hXY, hPrj, hxs, hys, ?_, ?_, hxsn, hysn⟩⟩
  · exact (DF.mem_names_dropCol _ "geometry" ox).mpr ⟨hox_d2, hxg⟩
  · exact (DF.mem_names_dropCol _ "geometry" oy).mpr ⟨hoy_d2, hyg⟩
  · exact DF.nodup_names_dropCol _ "geometry" hd2nodup
  · intro c hcm hcox hcoy hcg
    have hc_g2 : c ∈ g2.df.names := (hGm c).mp (hgnames_sup c hcm)
    have hc_d1 : c ∈ (g2.df.setCol ox (xs.map Val.num)).names :=
      (DF.mem_names_setCol g2.df ox c (xs.map Val.num)).mpr (Or.inl hc_g2)
    have hc_d2 : c ∈ ((g2.df.setCol ox (xs.map Val.num)).setCol oy (ys.map Val.num)).names :=
      (DF.mem_names_setCol _ oy c (ys.map Val.num)).mpr (Or.inl hc_d1)
    refine ⟨(DF.mem_names_dropCol _ "geometry" c).mpr ⟨hc_d2, hcg⟩, ?_⟩
    rw [DF.getCol_dropCol_ne _ "geometry" c hcg,
        DF.getCol_setCol_ne _ oy c (ys.map Val.num) hcoy,
        DF.getCol_setCol_ne g2.df ox c (xs.map Val.num) hcox,
        hG3 c hcg, hgget c hcg]
  · exact DF.uniform_dropCol _ "geometry" n hd2uni
  · rw [DF.getCol_dropCol_ne _ "geometry" ox hxg,
        DF.getCol_setCol_ne _ oy ox (ys.map Val.num) hxyne,
        DF.getCol_setCol_self g2.df ox (xs.map Val.num)]
  · rw [DF.getCol_dropCol_ne _ "geometry" oy hyg,
        DF.getCol_setCol_self _ oy (ys.map Val.num)]

/-- Counterexample to C7 as stated: a successful run in which
`out_x_field` ("x") names an existing input column, yet the original
input column "geometry" — distinct from both output fields — is NOT
retained in the output, refuting "every other original column of the
input table is retained unchanged". -/
theorem ct_out_field_collision_cex :
    coordinate_transform (fun _ _ p => p)
        (fun p => if p = "g.csv"
          then some ⟨[("x", [Val.num 1]), ("y", [Val.num 2]),
            ("geometry", [Val.num 9])]⟩ else none)
        "" "g.csv" (PyObj.str "x") (PyObj.str "y") (CRSpec.int 4326)
        none (PyObj.str "x") (PyObj.str "lat") (CRSpec.int 3857)
      = ([Event.fileRead "g.csv"],
         .ok ⟨[("x", [Val.num 1]), ("y", [Val.num 2]),
           ("lat", [Val.num 2])]⟩) ∧
    "x" ∈ (⟨[("x", [Val.num 1]), ("y", [Val.num 2]),
      ("geometry", [Val.num 9])]⟩ : DF).names ∧
    "geometry" ∈ (⟨[("x", [Val.num 1]), ("y", [Val.num 2]),
      ("geometry", [Val.num 9])]⟩ : DF).names ∧
    "geometry" ≠ "x" ∧ "geometry" ≠ "lat" ∧
    "geometry" ∉ (⟨[("x", [Val.num 1]), ("y", [Val.num 2]),
      ("lat", [Val.num 2])]⟩ : DF).names :=
  ⟨rfl, by decide, by decide, by decide, by decide, by decide⟩

/-- Witness for the amended C7 at a concrete run: column "a" is an
existing input column used as `out_x_field`, and in the output it is
still present, the "c" column was created, and no duplicate exists. -/
theorem ct_out_field_collision_witness :
    "a" ∈ (⟨[("a", [Val.num 1]), ("b", [Val.num 2]),
      ("c", [Val.num 2])]⟩ : DF).names ∧
    "c" ∈ (⟨[("a", [Val.num 1]), ("b", [Val.num 2]),
      ("c", [Val.num 2])]⟩ : DF).names ∧
    (⟨[("a", [Val.num 1]), ("b", [Val.num 2]),
      ("c", [Val.num 2])]⟩ : DF).names.Nodup :=
  (ct_out_field_collision (fun _ _ p => p)
    (fun p => if p = "ab.csv"
      then some ⟨[("a", [Val.num 1]), ("b", [Val.num 2])]⟩ else none)
    "" "ab.csv" (PyObj.str "a") (PyObj.str "b") (CRSpec.int 4326)
    none (PyObj.str "a") (PyObj.str "c") (CRSpec.int 3857)
    [Event.fileRead "ab.csv"]
    ⟨[("a", [Val.num 1]), ("b", [Val.num 2]), ("c", [Val.num 2])]⟩
    ⟨[("a", [Val.num 1]), ("b", [Val.num 2])]⟩
    "a" "c" 1
    rfl rfl rfl rfl (by decide) (by decide) (by decide)
    (by intro e he; fin_cases he <;> rfl)).1

/-- Witness for C8 at a concrete run with no output path: the trace of
the whole call holds no file write. -/
theorem ct_stage_isolation_witness :
    Event.fileWrite "v.csv" ∉ (coordinate_transform (fun _ _ p => p)
      (fun p => if p = "v.csv"
        then some ⟨[("x", [Val.num 1]), ("y", [Val.num 2])]⟩ else none)
      "" "v.csv" (PyObj.str "x") (PyObj.str "y") (CRSpec.int 4326)
      none (PyObj.str "lon") (PyObj.str "lat") (CRSpec.int 3857)).1 :=
  ct_stage_isolation.2.2.1 (fun _ _ p => p)
    (fun p => if p = "v.csv"
      then some ⟨[("x", [Val.num 1]), ("y", [Val.num 2])]⟩ else none)
    "" "v.csv" (PyObj.str "x") (PyObj.str "y") (CRSpec.int 4326)
    (PyObj.str "lon") (PyObj.str "lat") (CRSpec.int 3857)
    (coordinate_transform (fun _ _ p => p)
      (fun p => if p = "v.csv"
        then some ⟨[("x", [Val.num 1]), ("y", [Val.num 2])]⟩ else none)
      "" "v.csv" (PyObj.str "x") (PyObj.str "y") (CRSpec.int 4326)
      none (PyObj.str "lon") (PyObj.str "lat") (CRSpec.int 3857)).1
    (coordinate_transform (fun _ _ p => p)
      (fun p => if p = "v.csv"
        then some ⟨[("x", [Val.num 1]), ("y", [Val.num 2])]⟩ else none)
      "" "v.csv" (PyObj.str "x") (PyObj.str "y") (CRSpec.int 4326)
      none (PyObj.str "lon") (PyObj.str "lat") (CRSpec.int 3857)).2
    "v.csv" rfl
